import Mathlib

/-!
Verification development for the LearnPygame repository: a shallow embedding
of the two games (1st-game, the Star Catcher paddle game, and 2nd-game, the
infinite scrolling platformer), together with theorems settling the
specification claims C1 to C10.

Modelling conventions:
* pygame.Rect is an integer rectangle (x, y, w, h); left = x, right = x + w,
  top = y, bottom = y + h; colliderect is strict overlap in both axes.
* Python float arithmetic on vel_y, stamina and anim_timer is modelled
  exactly over the rationals; the Python literals 0.7, 1.2, 0.4, 1.8, 0.8
  become the rationals 7/10, 6/5, 2/5, 9/5, 4/5.  Python int() applied to
  such a value is pyInt, truncation toward zero.
* random.randint(a, b) is modelled through an oracle stream of naturals:
  the draw is a + (o 0) % (b - a + 1), which realises exactly the values of
  the interval [a, b]; random.choice indexes its list by the next oracle
  value in the same way.  Purely cosmetic randomness (brick patterns, moss
  spots, dust particles, clouds) never reaches game state and is omitted.
* Python object identity of Platform objects (the enemy spawn check uses
  the is operator, and each enemy aliases the Platform it stands on) is
  modelled by a unique id field drawn from the monotone counter next_id.
-/

set_option maxRecDepth 100000

namespace LearnPygame

/-- Integer rectangle, as pygame.Rect. -/
structure Rect where
  x : ℤ
  y : ℤ
  w : ℤ
  h : ℤ
deriving DecidableEq, Repr

/-- pygame Rect.colliderect: strict overlap in both axes. -/
def Rect.collides (a b : Rect) : Prop :=
  a.x < b.x + b.w ∧ b.x < a.x + a.w ∧ a.y < b.y + b.h ∧ b.y < a.y + a.h

instance (a b : Rect) : Decidable (Rect.collides a b) :=
  inferInstanceAs (Decidable (_ ∧ _ ∧ _ ∧ _))

/-- Python int() on a rational value: truncation toward zero. -/
def pyInt (q : ℚ) : ℤ := if 0 ≤ q then ⌊q⌋ else -⌊-q⌋

/-- Oracle stream feeding every random draw. -/
abbrev Oracle := ℕ → ℕ

/-- Drop the first value of the oracle stream. -/
def oracleTail (o : Oracle) : Oracle := fun n => o (n + 1)

/-- random.randint(a, b): an arbitrary value of [a, b], together with the
rest of the oracle stream.  The modulus makes every oracle yield an
in-range value, and every in-range value is realised by some oracle. -/
def randint (a b : ℤ) (o : Oracle) : ℤ × Oracle :=
  (a + (o 0 : ℤ) % (b - a + 1), oracleTail o)

theorem randint_bounds (a b : ℤ) (o : Oracle) (h : a ≤ b) :
    a ≤ (randint a b o).1 ∧ (randint a b o).1 ≤ b := by
  have hpos : (0:ℤ) < b - a + 1 := by omega
  constructor
  · have := Int.emod_nonneg (o 0 : ℤ) (by omega : b - a + 1 ≠ 0)
    simp only [randint]
    omega
  · have := Int.emod_lt_of_pos (o 0 : ℤ) hpos
    simp only [randint]
    omega

/-! ## 1st-game: Star Catcher -/

namespace StarCatcher

def SCREEN_WIDTH : ℤ := 800
def SCREEN_HEIGHT : ℤ := 600
def PLAYER_WIDTH : ℤ := 80
def PLAYER_HEIGHT : ℤ := 20
def PLAYER_SPEED : ℤ := 6

/-- The paddle of the catch game. -/
structure Player where
  rect : Rect
deriving DecidableEq, Repr

/-- Player.__init__ of the catch game. -/
def Player.init : Player :=
  ⟨⟨(SCREEN_WIDTH - PLAYER_WIDTH) / 2, SCREEN_HEIGHT - PLAYER_HEIGHT - 10,
    PLAYER_WIDTH, PLAYER_HEIGHT⟩⟩

/-- pygame Rect.clamp_ip(bounds): move the rect inside bounds; a rect at
least as wide (tall) as the bounds is centred on that axis.  The divisions
mirror the C integer divisions of pygame rect.c; all widths and heights in
this program are nonnegative, where every integer division convention
agrees. -/
def clamp_ip (r b : Rect) : Rect :=
  let x :=
    if b.w ≤ r.w then b.x + b.w / 2 - r.w / 2
    else if r.x < b.x then b.x
    else if b.x + b.w < r.x + r.w then b.x + b.w - r.w
    else r.x
  let y :=
    if b.h ≤ r.h then b.y + b.h / 2 - r.h / 2
    else if r.y < b.y then b.y
    else if b.y + b.h < r.y + r.h then b.y + b.h - r.h
    else r.y
  { r with x := x, y := y }

/-- Player.move of the catch game: shift horizontally by dx, then clamp
in place to the screen rectangle. -/
def Player.move (p : Player) (dx : ℤ) : Player :=
  ⟨clamp_ip { p.rect with x := p.rect.x + dx } ⟨0, 0, SCREEN_WIDTH, SCREEN_HEIGHT⟩⟩

/-- Claim C10: in the catch game, for every integer dx and every paddle
position, Player.move dx leaves the paddle rectangle horizontally inside
the screen (0 ≤ left and right ≤ SCREEN_WIDTH); out-of-range moves are
clamped to the boundary, in-range moves are applied unchanged. -/
theorem C10_paddle_clamped (x y dx : ℤ) :
    0 ≤ ((Player.mk ⟨x, y, 80, 20⟩).move dx).rect.x
    ∧ ((Player.mk ⟨x, y, 80, 20⟩).move dx).rect.x
        + ((Player.mk ⟨x, y, 80, 20⟩).move dx).rect.w ≤ 800
    ∧ (x + dx < 0 → ((Player.mk ⟨x, y, 80, 20⟩).move dx).rect.x = 0)
    ∧ (720 < x + dx → ((Player.mk ⟨x, y, 80, 20⟩).move dx).rect.x = 720)
    ∧ (0 ≤ x + dx → x + dx ≤ 720 →
        ((Player.mk ⟨x, y, 80, 20⟩).move dx).rect.x = x + dx) := by
  simp only [Player.move, clamp_ip, SCREEN_WIDTH, SCREEN_HEIGHT]
  norm_num
  split_ifs <;> omega

/-- Witness for C10 at concrete inputs: a move past the right boundary is
clamped to 720, a move past the left boundary is clamped to 0. -/
theorem C10_paddle_clamped_witness :
    ((Player.mk ⟨700, 570, 80, 20⟩).move 100).rect.x = 720
    ∧ ((Player.mk ⟨10, 570, 80, 20⟩).move (-50)).rect.x = 0 :=
  ⟨(C10_paddle_clamped 700 570 100).2.2.2.1 (by norm_num),
   (C10_paddle_clamped 10 570 (-50)).2.2.1 (by norm_num)⟩

end StarCatcher

/-! ## 2nd-game: infinite scrolling platformer -/

namespace Platformer

def SCREEN_WIDTH : ℤ := 800
def SCREEN_HEIGHT : ℤ := 600
def PLAYER_WIDTH : ℤ := 32
def PLAYER_HEIGHT : ℤ := 48
def PLAYER_SPEED : ℤ := 5
def SPRINT_SPEED : ℤ := 9
def JUMP_FORCE : ℚ := -14
def GRAVITY : ℚ := 7/10
def STAMINA_MAX : ℚ := 100
def STAMINA_DRAIN : ℚ := 6/5
def STAMINA_REGEN : ℚ := 2/5
def STAMINA_MIN_TO_SPRINT : ℚ := 10
def HP_MAX : ℤ := 5
def INVINCIBLE_FRAMES : ℤ := 90
def SLASH_WIDTH : ℤ := 28
def SLASH_HEIGHT : ℤ := 10
def SLASH_SPEED : ℤ := 12
def SLASH_LIFETIME : ℤ := 40
def SLASH_COOLDOWN : ℤ := 18
def ENEMY_WIDTH : ℤ := 28
def ENEMY_HEIGHT : ℤ := 32
def ENEMY_SPEED : ℤ := 2
def ENEMY_SPAWN_INTERVAL : ℤ := 120
def ENEMY_KILL_SCORE : ℤ := 50
def PLATFORM_HEIGHT : ℤ := 32
def PLATFORM_MIN_WIDTH : ℤ := 100
def PLATFORM_MAX_WIDTH : ℤ := 220
def PLATFORM_GAP_MIN : ℤ := 60
def PLATFORM_GAP_MAX : ℤ := 140
def PLATFORM_Y_VARIATION : ℤ := 60
def SCROLL_THRESHOLD : ℤ := SCREEN_WIDTH / 3

/-- A stone-bridge platform.  The id field models Python object identity
(each Platform() call creates a distinct object, and the spawn logic and
enemy aliasing compare platforms with the is operator); the cosmetic
brick_offsets and moss_spots fields are draw-only and omitted. -/
structure Platform where
  id : ℕ
  rect : Rect
deriving DecidableEq, Repr

/-- Keyboard snapshot, the keys the platformer reads. -/
structure Keys where
  left : Bool
  right : Bool
  space : Bool
  z : Bool
  lshift : Bool
  rshift : Bool
deriving DecidableEq, Repr

/-- A sword-wave projectile (SlashProjectile). -/
structure SlashProjectile where
  direction : ℤ
  rect : Rect
  life : ℤ
  anim_timer : ℤ
deriving DecidableEq, Repr

/-- SlashProjectile.__init__. -/
def SlashProjectile.init (x y : ℤ) (facing_right : Bool) : SlashProjectile :=
  { direction := if facing_right = true then 1 else -1,
    rect := ⟨x, y - SLASH_HEIGHT / 2, SLASH_WIDTH, SLASH_HEIGHT⟩,
    life := SLASH_LIFETIME,
    anim_timer := 0 }

/-- SlashProjectile.update. -/
def SlashProjectile.update (s : SlashProjectile) : SlashProjectile :=
  { s with rect := { s.rect with x := s.rect.x + SLASH_SPEED * s.direction },
           life := s.life - 1,
           anim_timer := s.anim_timer + 1 }

/-- SlashProjectile.is_alive. -/
def SlashProjectile.is_alive (s : SlashProjectile) : Prop :=
  0 < s.life ∧ -50 < s.rect.x ∧ s.rect.x < SCREEN_WIDTH + 50

instance (s : SlashProjectile) : Decidable s.is_alive :=
  inferInstanceAs (Decidable (_ ∧ _ ∧ _))

/-- The hero (Player of the platformer). -/
structure Player where
  rect : Rect
  vel_y : ℚ
  on_ground : Bool
  facing_right : Bool
  sprinting : Bool
  stamina : ℚ
  air_momentum : Bool
  attack_cooldown : ℤ
  slash_anim : ℤ
  hp : ℤ
  invincible : ℤ
  anim_timer : ℚ
  is_moving : Bool
deriving DecidableEq, Repr

/-- Player.__init__ of the platformer. -/
def Player.init (x y : ℤ) : Player :=
  { rect := ⟨x, y, PLAYER_WIDTH, PLAYER_HEIGHT⟩,
    vel_y := 0,
    on_ground := false,
    facing_right := true,
    sprinting := false,
    stamina := STAMINA_MAX,
    air_momentum := false,
    attack_cooldown := 0,
    slash_anim := 0,
    hp := HP_MAX,
    invincible := 0,
    anim_timer := 0,
    is_moving := false }

/-- Player.handle_input: sprint decision, horizontal movement, jump and
attack.  The function returns the updated player together with the slash
list (the Python method appends the new projectile to slash_list). -/
def Player.handle_input (p : Player) (keys : Keys) (slash_list : List SlashProjectile) :
    Player × List SlashProjectile :=
  let want_sprint := keys.lshift || keys.rshift
  let sa : Bool × Bool :=
    if p.on_ground = true then
      (want_sprint && decide (STAMINA_MIN_TO_SPRINT < p.stamina), false)
    else if p.sprinting = true ∧ want_sprint = false then (false, true)
    else if p.sprinting = true then (decide ((0:ℚ) < p.stamina), p.air_momentum)
    else (p.sprinting, p.air_momentum)
  let speed : ℤ := if sa.1 = true ∨ sa.2 = true then SPRINT_SPEED else PLAYER_SPEED
  let x1 := if keys.left = true then p.rect.x - speed else p.rect.x
  let facing1 := if keys.left = true then false else p.facing_right
  let moving1 := if keys.left = true then true else false
  let x2 := if keys.right = true then x1 + speed else x1
  let facing2 := if keys.right = true then true else facing1
  let moving2 := if keys.right = true then true else moving1
  let vg : ℚ × Bool :=
    if keys.space = true ∧ p.on_ground = true then (JUMP_FORCE, false)
    else (p.vel_y, p.on_ground)
  let atk : ℤ × ℤ × List SlashProjectile :=
    if keys.z = true ∧ p.attack_cooldown ≤ 0 then
      let sx := if facing2 = true then x2 + PLAYER_WIDTH + 4 else x2 - SLASH_WIDTH - 4
      let sy := p.rect.y + PLAYER_HEIGHT / 2
      (SLASH_COOLDOWN, 10, slash_list ++ [SlashProjectile.init sx sy facing2])
    else (p.attack_cooldown, p.slash_anim, slash_list)
  let cooldown2 := if 0 < atk.1 then atk.1 - 1 else atk.1
  let slashanim2 := if 0 < atk.2.1 then atk.2.1 - 1 else atk.2.1
  ({ p with rect := { p.rect with x := x2 },
            facing_right := facing2,
            is_moving := moving2,
            sprinting := sa.1,
            air_momentum := sa.2,
            vel_y := vg.1,
            on_ground := vg.2,
            attack_cooldown := cooldown2,
            slash_anim := slashanim2 },
   atk.2.2)

/-- Player.take_damage: gated by the invincibility timer. -/
def Player.take_damage (p : Player) : Player :=
  if 0 < p.invincible then p
  else { p with hp := p.hp - 1, invincible := INVINCIBLE_FRAMES }

/-- Player.update_invincible. -/
def Player.update_invincible (p : Player) : Player :=
  if 0 < p.invincible then { p with invincible := p.invincible - 1 } else p

/-- Player.update_stamina: drain while sprinting (or in air momentum) and
moving, otherwise regenerate.  The Python method assigns
self.stamina = max(0, self.stamina - STAMINA_DRAIN) and then tests
self.stamina <= 0; the drained value is written out here at both
branches. -/
def Player.update_stamina (p : Player) : Player :=
  if (p.sprinting = true ∨ p.air_momentum = true) ∧ p.is_moving = true then
    if max 0 (p.stamina - STAMINA_DRAIN) ≤ 0 then
      { p with stamina := max 0 (p.stamina - STAMINA_DRAIN), sprinting := false }
    else { p with stamina := max 0 (p.stamina - STAMINA_DRAIN) }
  else { p with stamina := min STAMINA_MAX (p.stamina + STAMINA_REGEN) }

/-- Player.update_animation (run-animation timer; draw-only state, kept
for fidelity of the per-tick pipeline). -/
def Player.update_animation (p : Player) : Player :=
  if p.is_moving = true ∧ p.on_ground = true then
    { p with anim_timer := p.anim_timer + (if p.sprinting = true then 9/5 else 1) }
  else if p.on_ground = true then
    { p with anim_timer := p.anim_timer * (4/5) }
  else p

/-- Player.apply_gravity: Euler step, velocity then position; the position
update is through Python int() truncation onto the integer rect. -/
def Player.apply_gravity (p : Player) : Player :=
  let v := p.vel_y + GRAVITY
  { p with vel_y := v, rect := { p.rect with y := p.rect.y + pyInt v } }

/-- The landing condition of Player.check_platform_collision for one
platform: overlap, falling (vel_y nonnegative), and the bottom edge within
vel_y + 10 of the platform top. -/
def landing (p : Player) (plat : Platform) : Prop :=
  Rect.collides p.rect plat.rect ∧ 0 ≤ p.vel_y ∧
    ((p.rect.y + p.rect.h : ℤ) : ℚ) ≤ (plat.rect.y : ℚ) + p.vel_y + 10

instance (p : Player) (plat : Platform) : Decidable (landing p plat) :=
  inferInstanceAs (Decidable (_ ∧ _ ∧ _))

/-- The platform loop of Player.check_platform_collision: scan the list,
snap onto the first platform meeting the landing condition and stop. -/
def collide_loop (p : Player) : List Platform → Player
  | [] => p
  | plat :: rest =>
    if Rect.collides p.rect plat.rect then
      if 0 ≤ p.vel_y ∧ ((p.rect.y + p.rect.h : ℤ) : ℚ) ≤ (plat.rect.y : ℚ) + p.vel_y + 10 then
        { p with rect := { p.rect with y := plat.rect.y - p.rect.h },
                 vel_y := 0, on_ground := true, air_momentum := false }
      else collide_loop p rest
    else collide_loop p rest

/-- Player.check_platform_collision: reset on_ground, then scan. -/
def Player.check_platform_collision (p : Player) (platforms : List Platform) : Player :=
  collide_loop { p with on_ground := false } platforms

/-- Player.is_dead: below the bottom of the screen, or out of hp. -/
def Player.is_dead (p : Player) : Prop :=
  SCREEN_HEIGHT < p.rect.y ∨ p.hp ≤ 0

instance (p : Player) : Decidable p.is_dead :=
  inferInstanceAs (Decidable (_ ∨ _))

/-- The purple patrolling enemy.  The platform field is the value of the
aliased Platform object (Python stores a reference; the only mutation of a
platform rect is the camera scroll, which the scroll phase mirrors onto
this field exactly when the aliased object is still in the world list). -/
structure Enemy where
  rect : Rect
  platform : Platform
  speed : ℤ
  alive : Bool
  anim_timer : ℤ
  dying : Bool
  death_timer : ℤ
deriving DecidableEq, Repr

/-- Enemy.__init__: random x on the platform, fixed y on its top, random
patrol direction, random animation phase. -/
def Enemy.init (plat : Platform) (o : Oracle) : Enemy × Oracle :=
  let r1 := randint (plat.rect.x + 10)
      (max (plat.rect.x + 11) (plat.rect.x + plat.rect.w - ENEMY_WIDTH - 10)) o
  let y := plat.rect.y - ENEMY_HEIGHT
  let sgn : ℤ := if r1.2 0 % 2 = 0 then -1 else 1
  let o2 := oracleTail r1.2
  let r3 := randint 0 100 o2
  ({ rect := ⟨r1.1, y, ENEMY_WIDTH, ENEMY_HEIGHT⟩,
     platform := plat,
     speed := ENEMY_SPEED * sgn,
     alive := true,
     anim_timer := r3.1,
     dying := false,
     death_timer := 0 }, r3.2)

/-- Enemy.update: death animation if dying, else patrol and turn at the
platform edges. -/
def Enemy.update (e : Enemy) : Enemy :=
  if e.dying = true then { e with death_timer := e.death_timer + 1 }
  else
    let anim := e.anim_timer + 1
    let x := e.rect.x + e.speed
    let speed :=
      if x ≤ e.platform.rect.x + 5 then |e.speed|
      else if e.platform.rect.x + e.platform.rect.w - 5 ≤ x + e.rect.w then -|e.speed|
      else e.speed
    { e with rect := { e.rect with x := x }, speed := speed, anim_timer := anim }

/-- Enemy.kill: start the death animation. -/
def Enemy.kill (e : Enemy) : Enemy :=
  { e with dying := true, death_timer := 0 }

/-- Enemy.is_finished: the death animation has played out. -/
def Enemy.is_finished (e : Enemy) : Prop :=
  e.dying = true ∧ 15 < e.death_timer

instance (e : Enemy) : Decidable e.is_finished :=
  inferInstanceAs (Decidable (_ ∧ _))

/-- Fallback platform for the (unreachable in game) empty-list accesses;
the Python code indexes platforms[-1] of a never-empty list. -/
def dummyPlatform : Platform := ⟨0, ⟨0, 0, 0, 0⟩⟩

/-- Right edge of the last platform of the list (platforms[-1].rect.right). -/
def lastRight (plats : List Platform) : ℤ :=
  (plats.getLastD dummyPlatform).rect.x + (plats.getLastD dummyPlatform).rect.w

/-- generate_platform: a new platform at a random gap to the right of the
last one, with random width and a clamped random vertical offset.  The new
platform receives the fresh identity nid. -/
def generate_platform (last : Platform) (nid : ℕ) (o : Oracle) : Platform × Oracle :=
  let g := randint PLATFORM_GAP_MIN PLATFORM_GAP_MAX o
  let w := randint PLATFORM_MIN_WIDTH PLATFORM_MAX_WIDTH g.2
  let x := last.rect.x + last.rect.w + g.1
  let dy := randint (-PLATFORM_Y_VARIATION) PLATFORM_Y_VARIATION w.2
  let y := max 200 (min (last.rect.y + dy.1) (SCREEN_HEIGHT - 80))
  (⟨nid, ⟨x, y, w.1, PLATFORM_HEIGHT⟩⟩, dy.2)

/-- Fuel-driven form of the generation loop
while platforms[-1].rect.right < t: platforms.append(generate_platform(platforms[-1])).
Each generated platform widens the frontier by at least
PLATFORM_GAP_MIN + PLATFORM_MIN_WIDTH = 160, so the fuel (t - lastRight)
used by genLoop always suffices and the loop terminates. -/
def genLoopFuel (t : ℤ) (fuel : ℕ) : List Platform → ℕ → Oracle → List Platform × ℕ × Oracle :=
  Nat.rec (motive := fun _ => List Platform → ℕ → Oracle → List Platform × ℕ × Oracle)
    (fun plats nid o => (plats, nid, o))
    (fun _ ih plats nid o =>
      if lastRight plats < t then
        let g := generate_platform (plats.getLastD dummyPlatform) nid o
        ih (plats ++ [g.1]) (nid + 1) g.2
      else (plats, nid, o))
    fuel

theorem genLoopFuel_zero (t : ℤ) (plats : List Platform) (nid : ℕ) (o : Oracle) :
    genLoopFuel t 0 plats nid o = (plats, nid, o) := rfl

theorem genLoopFuel_succ (t : ℤ) (f : ℕ) (plats : List Platform) (nid : ℕ) (o : Oracle) :
    genLoopFuel t (f + 1) plats nid o =
      if lastRight plats < t then
        genLoopFuel t f
          (plats ++ [(generate_platform (plats.getLastD dummyPlatform) nid o).1]) (nid + 1)
          (generate_platform (plats.getLastD dummyPlatform) nid o).2
      else (plats, nid, o) := rfl

/-- The platform generation pass up to the frontier t. -/
def genLoop (t : ℤ) (plats : List Platform) (nid : ℕ) (o : Oracle) :
    List Platform × ℕ × Oracle :=
  genLoopFuel t (t - lastRight plats).toNat plats nid o

/-- The long starting stone bridge of reset_game. -/
def startPlatform (nid : ℕ) : Platform :=
  ⟨nid, ⟨0, SCREEN_HEIGHT - 60, 400, PLATFORM_HEIGHT⟩⟩

/-- reset_game: the long starting bridge, pregenerated platforms out to
SCREEN_WIDTH + 400, and a fresh player standing on the bridge. -/
def reset_game (nid : ℕ) (o : Oracle) : Player × List Platform × ℕ × Oracle :=
  let g := genLoop (SCREEN_WIDTH + 400) [startPlatform nid] (nid + 1) o
  (Player.init 100 (SCREEN_HEIGHT - 60 - PLAYER_HEIGHT), g.1, g.2.1, g.2.2)

/-- The whole mutable state of the main loop. -/
structure GameState where
  player : Player
  platforms : List Platform
  score : ℤ
  slashes : List SlashProjectile
  enemies : List Enemy
  game_over : Bool
  enemy_spawn_timer : ℤ
  next_id : ℕ
  rng : Oracle

/-- The state produced by a reset (initial startup, and the restart on a
key press during game over). -/
def resetStateOf (nid : ℕ) (o : Oracle) : GameState :=
  let r := reset_game nid o
  { player := r.1, platforms := r.2.1, score := 0, slashes := [], enemies := [],
    game_over := false, enemy_spawn_timer := 0, next_id := r.2.2.1, rng := r.2.2.2 }

/-- Startup state of the program. -/
def initState (o : Oracle) : GameState := resetStateOf 0 o

/-- The event loop of one frame: each key-down event seen while in game
over reinitialises the world through reset_game (after which game_over is
false, so later events of the same frame change nothing). -/
def eventPhase : List Bool → GameState → GameState
  | [], st => st
  | ev :: rest, st =>
    eventPhase rest
      (if ev = true ∧ st.game_over = true then resetStateOf st.next_id st.rng else st)

/-- Update steps 1-6 of the frame: input, stamina, animation,
invincibility, gravity, platform collision. -/
def playerPhase (keys : Keys) (st : GameState) : GameState :=
  let h := st.player.handle_input keys st.slashes
  let pl := ((((h.1.update_stamina).update_animation).update_invincible).apply_gravity).check_platform_collision
      st.platforms
  { st with player := pl, slashes := h.2 }

/-- Update step 7: move the slashes and drop the dead ones. -/
def slashUpdatePhase (st : GameState) : GameState :=
  let sl := (st.slashes.map SlashProjectile.update).filter (fun s => decide s.is_alive)
  { st with slashes := sl }

/-- Update step 8: move the enemies and drop the finished ones. -/
def enemyUpdatePhase (st : GameState) : GameState :=
  let en := (st.enemies.map Enemy.update).filter (fun e => !decide e.is_finished)
  { st with enemies := en }

/-- The inner scan of the slash-versus-enemy pass: kill the first live
enemy hit by the slash, if any. -/
def killFirst (s : SlashProjectile) : List Enemy → Option (List Enemy)
  | [] => none
  | e :: rest =>
    if e.dying = false ∧ Rect.collides s.rect e.rect then some (e.kill :: rest)
    else Option.map (fun l => e :: l) (killFirst s rest)

/-- The slash-versus-enemy pass: each slash in order kills at most one
enemy (break), scores ENEMY_KILL_SCORE and is spent (life set to 0). -/
def slashHits : List SlashProjectile → List Enemy →
    List SlashProjectile × List Enemy × ℤ
  | [], ens => ([], ens, 0)
  | s :: rest, ens =>
    match killFirst s ens with
    | some ens2 =>
      let r := slashHits rest ens2
      ({ s with life := 0 } :: r.1, r.2.1, r.2.2 + ENEMY_KILL_SCORE)
    | none =>
      let r := slashHits rest ens
      (s :: r.1, r.2.1, r.2.2)

/-- Update step 9 as a state transformer. -/
def slashHitPhase (st : GameState) : GameState :=
  let r := slashHits st.slashes st.enemies
  { st with slashes := r.1, enemies := r.2.1, score := st.score + r.2.2 }

/-- One enemy of the player-damage pass: a live overlapping enemy calls
take_damage. -/
def damageStep (pl : Player) (e : Enemy) : Player :=
  if e.dying = false ∧ Rect.collides pl.rect e.rect then pl.take_damage else pl

/-- Update step 10: every live overlapping enemy calls take_damage (the
invincibility timer gates the actual hp loss). -/
def damagePhase (st : GameState) : GameState :=
  { st with player := st.enemies.foldl damageStep st.player }

/-- Shift a rect left by the scroll amount. -/
def shiftRect (d : ℤ) (r : Rect) : Rect := { r with x := r.x - d }

/-- Update step 11, the camera scroll: when the player is past
SCROLL_THRESHOLD, pin the player back to the threshold, add the excess to
the score, and shift every platform, slash and enemy left by the excess.
An enemy whose aliased platform is still in the world list sees that
platform shifted (in Python the alias is the same object; the line
e.platform.rect.x -= 0 is a no-op). -/
def scrollPhase (st : GameState) : GameState :=
  if SCROLL_THRESHOLD < st.player.rect.x then
    let shift := st.player.rect.x - SCROLL_THRESHOLD
    { st with
      player := { st.player with rect := { st.player.rect with x := SCROLL_THRESHOLD } },
      score := st.score + shift,
      platforms := st.platforms.map (fun p => { p with rect := shiftRect shift p.rect }),
      slashes := st.slashes.map (fun s => { s with rect := shiftRect shift s.rect }),
      enemies := st.enemies.map (fun e =>
        { e with rect := shiftRect shift e.rect,
                 platform := if st.platforms.any (fun p => p.id == e.platform.id)
                             then { e.platform with rect := shiftRect shift e.platform.rect }
                             else e.platform }) }
  else st

/-- Update step 12: generate platforms out to SCREEN_WIDTH + 300. -/
def genPhase (st : GameState) : GameState :=
  { st with platforms := (genLoop (SCREEN_WIDTH + 300) st.platforms st.next_id st.rng).1,
            next_id := (genLoop (SCREEN_WIDTH + 300) st.platforms st.next_id st.rng).2.1,
            rng := (genLoop (SCREEN_WIDTH + 300) st.platforms st.next_id st.rng).2.2 }

/-- Update step 13, the enemy spawner: every ENEMY_SPAWN_INTERVAL frames
pick a random platform that is past half the screen and wide enough, and
spawn an enemy on it unless a live enemy already stands on that platform
(the is comparison of Python is the id comparison here). -/
def spawnPhase (st : GameState) : GameState :=
  if ENEMY_SPAWN_INTERVAL ≤ st.enemy_spawn_timer + 1 then
    let valid := st.platforms.filter (fun p =>
      decide (400 < p.rect.x + p.rect.w) && decide (ENEMY_WIDTH + 20 ≤ p.rect.w))
    if valid = [] then { st with enemy_spawn_timer := 0 }
    else
      let plat := valid.getD (st.rng 0 % valid.length) dummyPlatform
      let o2 := oracleTail st.rng
      if st.enemies.any (fun e => e.platform.id == plat.id && !e.dying) then
        { st with enemy_spawn_timer := 0, rng := o2 }
      else
        let r := Enemy.init plat o2
        { st with enemy_spawn_timer := 0, enemies := st.enemies ++ [r.1], rng := r.2 }
  else { st with enemy_spawn_timer := st.enemy_spawn_timer + 1 }

/-- Update step 14: drop platforms and enemies that scrolled off the left. -/
def removePhase (st : GameState) : GameState :=
  { st with
    platforms := st.platforms.filter (fun p => decide (-50 < p.rect.x + p.rect.w)),
    enemies := st.enemies.filter (fun e =>
      !decide e.is_finished && decide (-50 < e.rect.x + e.rect.w)) }

/-- Update step 15: the player never leaves the left edge. -/
def clampPhase (st : GameState) : GameState :=
  if st.player.rect.x < 0 then
    { st with player := { st.player with rect := { st.player.rect with x := 0 } } }
  else st

/-- Update step 16: the death check raises game_over. -/
def deathPhase (st : GameState) : GameState :=
  if st.player.is_dead then { st with game_over := true } else st

/-- The whole update section of a frame (runs only while not game over). -/
def updatePhase (keys : Keys) (st : GameState) : GameState :=
  if st.game_over = true then st
  else
    deathPhase (clampPhase (removePhase (spawnPhase (genPhase (scrollPhase
      (damagePhase (slashHitPhase (enemyUpdatePhase (slashUpdatePhase
        (playerPhase keys st))))))))))

/-- One full frame of the main loop: events, then the update section. -/
def tick (keys : Keys) (events : List Bool) (st : GameState) : GameState :=
  updatePhase keys (eventPhase events st)

/-- The reachable states of the platformer: the startup state under any
oracle, closed under frames with any inputs. -/
inductive Reach : GameState → Prop where
  | init : ∀ o : Oracle, Reach (initState o)
  | step : ∀ (keys : Keys) (events : List Bool) (st : GameState),
      Reach st → Reach (tick keys events st)

/-- Run a scripted sequence of frames without key-down events. -/
def runScript : List Keys → GameState → GameState
  | [], st => st
  | k :: rest, st => runScript rest (tick k [] st)

theorem reach_runScript (ks : List Keys) (st : GameState) (h : Reach st) :
    Reach (runScript ks st) := by
  induction ks generalizing st with
  | nil => exact h
  | cons k rest ih => exact ih _ (Reach.step k [] st h)

/-! ### Claim C1: the landing rule of check_platform_collision -/

theorem landing_erase_ground (p : Player) (q : Platform) :
    landing { p with on_ground := false } q ↔ landing p q := Iff.rfl

theorem collide_loop_cons (p : Player) (plat : Platform) (rest : List Platform) :
    collide_loop p (plat :: rest) =
      if landing p plat then
        { p with rect := { p.rect with y := plat.rect.y - p.rect.h },
                 vel_y := 0, on_ground := true, air_momentum := false }
      else collide_loop p rest := by
  simp only [collide_loop, landing]
  by_cases h1 : Rect.collides p.rect plat.rect
  · by_cases h2 : 0 ≤ p.vel_y ∧ ((p.rect.y + p.rect.h : ℤ) : ℚ) ≤ (plat.rect.y : ℚ) + p.vel_y + 10
    · rw [if_pos h1, if_pos h2, if_pos ⟨h1, h2⟩]
    · rw [if_pos h1, if_neg h2, if_neg (by tauto)]
  · rw [if_neg h1, if_neg (by tauto)]

theorem collide_loop_none (p : Player) (l : List Platform)
    (h : ∀ q ∈ l, ¬ landing p q) : collide_loop p l = p := by
  induction l with
  | nil => rfl
  | cons plat rest ih =>
    rw [collide_loop_cons, if_neg (h plat (by simp))]
    exact ih (fun q hq => h q (List.mem_cons_of_mem _ hq))

theorem collide_loop_append (p : Player) (l1 l2 : List Platform)
    (h : ∀ q ∈ l1, ¬ landing p q) :
    collide_loop p (l1 ++ l2) = collide_loop p l2 := by
  induction l1 with
  | nil => rfl
  | cons plat rest ih =>
    rw [List.cons_append, collide_loop_cons, if_neg (h plat (by simp))]
    exact ih (fun q hq => h q (List.mem_cons_of_mem _ hq))

/-- Claim C1: check_platform_collision counts an overlap as a landing
exactly when vel_y is nonnegative and the bottom edge is at most the
platform top plus vel_y plus 10; the first such platform snaps the bottom
to the platform top, zeroes vel_y and grounds the player, once per call;
when no platform qualifies, the call only clears on_ground, leaving
position and velocity unchanged. -/
theorem C1_check_platform_collision (p : Player) (l1 l2 : List Platform) (q : Platform) :
    ((∀ r ∈ l1, ¬ landing p r) →
      p.check_platform_collision l1 = { p with on_ground := false })
    ∧ ((∀ r ∈ l1, ¬ landing p r) → landing p q →
      p.check_platform_collision (l1 ++ q :: l2) =
        { p with rect := { p.rect with y := q.rect.y - p.rect.h },
                 vel_y := 0, on_ground := true, air_momentum := false }) := by
  constructor
  · intro h
    unfold Player.check_platform_collision
    exact collide_loop_none _ _ (fun r hr => h r hr)
  · intro h hq
    unfold Player.check_platform_collision
    rw [collide_loop_append ({ p with on_ground := false }) l1 (q :: l2)
        (fun r hr hl => h r hr ((landing_erase_ground p r).mp hl)),
      collide_loop_cons, if_pos ((landing_erase_ground p q).mpr hq)]

def c1player : Player := { (Player.init 100 493) with vel_y := 2 }

def c1plat : Platform := ⟨0, ⟨0, 540, 400, 32⟩⟩

def c1platNo : Platform := ⟨1, ⟨500, 540, 100, 32⟩⟩

/-- Witness for C1: a platform list whose first entry does not meet the
landing rule and whose second does; the call snaps onto the second.  On a
list with no landing platform the call only clears on_ground. -/
theorem C1_check_platform_collision_witness :
    c1player.check_platform_collision [c1platNo, c1plat]
      = { c1player with rect := { c1player.rect with y := 492 },
                        vel_y := 0, on_ground := true, air_momentum := false }
    ∧ c1player.check_platform_collision [c1platNo]
      = { c1player with on_ground := false } := by
  constructor
  · have h := (C1_check_platform_collision c1player [c1platNo] [] c1plat).2
      (by with_unfolding_all decide) (by with_unfolding_all decide)
    exact h.trans (by with_unfolding_all decide)
  · exact (C1_check_platform_collision c1player [c1platNo] [] c1plat).1
      (by with_unfolding_all decide)

/-! ### Claim C3: gravity integration -/

theorem pyInt_of_nonneg (q : ℚ) (h : 0 ≤ q) : pyInt q = ⌊q⌋ := if_pos h

/-- Claim C3 counterexample: after one apply_gravity tick from rest the
vertical displacement is 0, not 1 * GRAVITY = 7/10; the int() truncation
of vel_y onto the integer rect makes the claimed closed form
sum of k * GRAVITY fail already at N = 1. -/
theorem C3_counterexample :
    ¬ ((((Player.apply_gravity)^[1] (Player.init 100 492)).rect.y : ℚ)
        = ((Player.init 100 492).rect.y : ℚ)
          + (Finset.range 1).sum (fun k => ((k + 1 : ℕ) : ℚ) * GRAVITY)) := by
  intro h
  rw [Finset.sum_range_one] at h
  have h1 : ((Player.apply_gravity)^[1] (Player.init 100 492)).rect.y = 492 := by
    with_unfolding_all decide
  rw [h1] at h
  norm_num [Player.init, GRAVITY] at h

/-- Claim C3 amended: starting from rest, after N apply_gravity ticks the
velocity is N * GRAVITY (in the exact rational model of the float
arithmetic) and the displacement is the sum over k = 1..N of
floor (k * GRAVITY): the code adds int(vel_y), the truncation of the
velocity, to the integer y coordinate each tick. -/
theorem C3_gravity_closed_form (n : ℕ) (p : Player) (h : p.vel_y = 0) :
    ((Player.apply_gravity)^[n] p).vel_y = n * GRAVITY
    ∧ ((Player.apply_gravity)^[n] p).rect.y
        = p.rect.y + (Finset.range n).sum (fun k => ⌊((k + 1 : ℕ) : ℚ) * GRAVITY⌋) := by
  induction n with
  | zero => simp [h]
  | succ m ih =>
    rw [Function.iterate_succ_apply']
    have hvel : ((Player.apply_gravity)^[m] p).apply_gravity.vel_y
        = ((Player.apply_gravity)^[m] p).vel_y + GRAVITY := rfl
    have hy : ((Player.apply_gravity)^[m] p).apply_gravity.rect.y
        = ((Player.apply_gravity)^[m] p).rect.y
          + pyInt (((Player.apply_gravity)^[m] p).vel_y + GRAVITY) := rfl
    constructor
    · rw [hvel, ih.1]
      push_cast
      ring
    · rw [hy, ih.1, ih.2, Finset.sum_range_succ]
      have hnn : (0:ℚ) ≤ (m : ℚ) * GRAVITY + GRAVITY := by
        have : (0:ℚ) ≤ (m : ℚ) := Nat.cast_nonneg m
        rw [GRAVITY]
        positivity
      rw [pyInt_of_nonneg _ hnn]
      have : ((m : ℚ)) * GRAVITY + GRAVITY = ((m + 1 : ℕ) : ℚ) * GRAVITY := by
        push_cast
        ring
      rw [this]
      omega

/-- Witness for C3 amended at N = 2 from the start position: velocity
2 * GRAVITY = 7/5 and displacement floor(0.7) + floor(1.4) = 1. -/
theorem C3_gravity_closed_form_witness :
    ((Player.apply_gravity)^[2] (Player.init 100 492)).vel_y = 7/5
    ∧ ((Player.apply_gravity)^[2] (Player.init 100 492)).rect.y = 493 := by
  have h := C3_gravity_closed_form 2 (Player.init 100 492) rfl
  refine ⟨h.1.trans (by norm_num [GRAVITY]), h.2.trans ?_⟩
  rw [Finset.sum_range_succ, Finset.sum_range_one]
  norm_num [Player.init, GRAVITY]

/-! ### Claim C4: the sprint gate -/

/-- Claim C4 amended: after handle_input, on a grounded player sprint is
off whenever stamina is at most STAMINA_MIN_TO_SPRINT; in the air an
ongoing sprint survives (under held shift) as long as stamina is positive,
so after handle_input sprint always implies positive stamina, but the
10-point minimum only gates sprint starts on the ground. -/
theorem C4_sprint_gate (p : Player) (keys : Keys) (sl : List SlashProjectile) :
    (p.on_ground = true → (p.handle_input keys sl).1.stamina ≤ STAMINA_MIN_TO_SPRINT →
      (p.handle_input keys sl).1.sprinting = false)
    ∧ ((p.handle_input keys sl).1.sprinting = true →
      0 < (p.handle_input keys sl).1.stamina) := by
  have hst : (p.handle_input keys sl).1.stamina = p.stamina := rfl
  have hsp : (p.handle_input keys sl).1.sprinting =
      (if p.on_ground = true then
        ((keys.lshift || keys.rshift) && decide (STAMINA_MIN_TO_SPRINT < p.stamina), false)
      else if p.sprinting = true ∧ (keys.lshift || keys.rshift) = false then (false, true)
      else if p.sprinting = true then (decide ((0:ℚ) < p.stamina), p.air_momentum)
      else (p.sprinting, p.air_momentum)).1 := rfl
  rw [hst, hsp]
  constructor
  · intro hg hle
    rw [if_pos hg]
    simp only
    rw [decide_eq_false (not_lt.mpr hle)]
    exact Bool.and_false _
  · intro hsp1
    by_cases hg : p.on_ground = true
    · rw [if_pos hg] at hsp1
      simp only [Bool.and_eq_true, decide_eq_true_eq] at hsp1
      have := hsp1.2
      rw [STAMINA_MIN_TO_SPRINT] at this
      linarith
    · rw [if_neg hg] at hsp1
      by_cases h2 : p.sprinting = true ∧ (keys.lshift || keys.rshift) = false
      · rw [if_pos h2] at hsp1
        simp at hsp1
      · rw [if_neg h2] at hsp1
        by_cases h3 : p.sprinting = true
        · rw [if_pos h3] at hsp1
          simpa using hsp1
        · rw [if_neg h3] at hsp1
          simp only at hsp1
          exact absurd hsp1 h3

/-- Witness for C4 amended: a grounded player with stamina 5 never comes
out of handle_input sprinting. -/
theorem C4_sprint_gate_witness :
    (({ (Player.init 100 492) with on_ground := true, stamina := 5 }).handle_input
      ⟨false, true, false, false, true, false⟩ []).1.sprinting = false :=
  (C4_sprint_gate { (Player.init 100 492) with on_ground := true, stamina := 5 }
    ⟨false, true, false, false, true, false⟩ []).1 rfl (by with_unfolding_all decide)

/-! ### Claim C6: damage gated by invincibility -/

/-- Claim C6: take_damage is a no-op while the invincibility timer is
positive; from a zero timer it takes exactly 1 hp and arms the timer with
INVINCIBLE_FRAMES, so an enemy overlap on the very next frame (after the
per-frame timer decrement) takes no further hp. -/
theorem C6_take_damage (p : Player) :
    (0 < p.invincible → p.take_damage = p)
    ∧ (p.invincible = 0 →
        p.take_damage = { p with hp := p.hp - 1, invincible := INVINCIBLE_FRAMES })
    ∧ (p.invincible = 0 →
        ((p.take_damage.update_invincible).take_damage).hp = p.hp - 1) := by
  refine ⟨fun h => if_pos h, fun h => ?_, fun h => ?_⟩
  · rw [Player.take_damage, if_neg (by omega)]
  · have h1 : p.take_damage = { p with hp := p.hp - 1, invincible := INVINCIBLE_FRAMES } := by
      rw [Player.take_damage, if_neg (by omega)]
    rw [h1]
    have h2 : ({ p with hp := p.hp - 1, invincible := INVINCIBLE_FRAMES } : Player).update_invincible
        = { p with hp := p.hp - 1, invincible := INVINCIBLE_FRAMES - 1 } := by
      rw [Player.update_invincible, if_pos (by norm_num [INVINCIBLE_FRAMES])]
    rw [h2]
    rw [Player.take_damage, if_pos (by norm_num [INVINCIBLE_FRAMES])]

/-- Witness for C6: at timer 0 a hit takes 1 hp and a second hit on the
next frame takes none; at a positive timer a hit is a no-op. -/
theorem C6_take_damage_witness :
    (Player.init 100 492).take_damage
      = { Player.init 100 492 with hp := 4, invincible := 90 }
    ∧ ((((Player.init 100 492).take_damage).update_invincible).take_damage).hp = 4
    ∧ ({ Player.init 100 492 with invincible := 7 }).take_damage
      = { Player.init 100 492 with invincible := 7 } := by
  refine ⟨?_, ?_, ?_⟩
  · exact ((C6_take_damage (Player.init 100 492)).2.1 rfl).trans (by with_unfolding_all decide)
  · exact ((C6_take_damage (Player.init 100 492)).2.2 rfl).trans (by with_unfolding_all decide)
  · exact (C6_take_damage { Player.init 100 492 with invincible := 7 }).1 (by norm_num)

/-! ### Claim C8: stamina stays in [0, STAMINA_MAX] -/

/-- A per-tick stamina-relevant call: handle_input with some keys, or
update_stamina. -/
inductive StaminaOp where
  | hin : Keys → StaminaOp
  | ust : StaminaOp

/-- Run a sequence of handle_input / update_stamina calls. -/
def runStaminaOps : List StaminaOp → Player → Player
  | [], p => p
  | StaminaOp.hin k :: rest, p => runStaminaOps rest (p.handle_input k []).1
  | StaminaOp.ust :: rest, p => runStaminaOps rest p.update_stamina

theorem handle_input_stamina (p : Player) (k : Keys) (sl : List SlashProjectile) :
    (p.handle_input k sl).1.stamina = p.stamina := rfl

theorem update_stamina_bounds (p : Player) (h0 : 0 ≤ p.stamina)
    (h1 : p.stamina ≤ STAMINA_MAX) :
    0 ≤ p.update_stamina.stamina ∧ p.update_stamina.stamina ≤ STAMINA_MAX := by
  rw [STAMINA_MAX] at h1
  unfold Player.update_stamina
  split_ifs with hc hz
  · constructor
    · show (0:ℚ) ≤ max 0 (p.stamina - STAMINA_DRAIN)
      exact le_max_left _ _
    · show max 0 (p.stamina - STAMINA_DRAIN) ≤ STAMINA_MAX
      rw [STAMINA_MAX, STAMINA_DRAIN]
      exact max_le (by norm_num) (by linarith)
  · constructor
    · show (0:ℚ) ≤ max 0 (p.stamina - STAMINA_DRAIN)
      exact le_max_left _ _
    · show max 0 (p.stamina - STAMINA_DRAIN) ≤ STAMINA_MAX
      rw [STAMINA_MAX, STAMINA_DRAIN]
      exact max_le (by norm_num) (by linarith)
  · constructor
    · show (0:ℚ) ≤ min STAMINA_MAX (p.stamina + STAMINA_REGEN)
      rw [STAMINA_MAX, STAMINA_REGEN]
      exact le_min (by norm_num) (by linarith)
    · show min STAMINA_MAX (p.stamina + STAMINA_REGEN) ≤ STAMINA_MAX
      exact min_le_left _ _

/-- Claim C8: from the initial player (stamina STAMINA_MAX), any sequence
of per-tick handle_input and update_stamina calls keeps stamina inside
the closed interval [0, STAMINA_MAX]. -/
theorem C8_stamina_in_range (ops : List StaminaOp) (x y : ℤ) :
    0 ≤ (runStaminaOps ops (Player.init x y)).stamina
    ∧ (runStaminaOps ops (Player.init x y)).stamina ≤ STAMINA_MAX := by
  have key : ∀ (ops : List StaminaOp) (p : Player), 0 ≤ p.stamina → p.stamina ≤ STAMINA_MAX →
      0 ≤ (runStaminaOps ops p).stamina ∧ (runStaminaOps ops p).stamina ≤ STAMINA_MAX := by
    intro ops
    induction ops with
    | nil => exact fun p h0 h1 => ⟨h0, h1⟩
    | cons op rest ih =>
      intro p h0 h1
      cases op with
      | hin k =>
        exact ih _ (by rw [handle_input_stamina]; exact h0)
          (by rw [handle_input_stamina]; exact h1)
      | ust =>
        obtain ⟨g0, g1⟩ := update_stamina_bounds p h0 h1
        exact ih _ g0 g1
  exact key ops _ (by norm_num [Player.init, STAMINA_MAX])
    (by norm_num [Player.init, STAMINA_MAX])

/-! ### Claim C2: the camera scroll pass -/

/-- Claim C2: whenever the player is past SCROLL_THRESHOLD, the scroll
pass pins the player x back to the threshold, adds exactly the excess to
the score, and shifts the x coordinate of every platform, slash and enemy
left by exactly the excess, leaving all their other fields (and the other
player fields) unchanged. -/
theorem C2_scroll_pass (st : GameState) (h : SCROLL_THRESHOLD < st.player.rect.x) :
    (scrollPhase st).player
        = { st.player with rect := { st.player.rect with x := SCROLL_THRESHOLD } }
    ∧ (scrollPhase st).score = st.score + (st.player.rect.x - SCROLL_THRESHOLD)
    ∧ (scrollPhase st).platforms = st.platforms.map (fun p =>
        { p with rect := { p.rect with x := p.rect.x - (st.player.rect.x - SCROLL_THRESHOLD) } })
    ∧ (scrollPhase st).slashes = st.slashes.map (fun s =>
        { s with rect := { s.rect with x := s.rect.x - (st.player.rect.x - SCROLL_THRESHOLD) } })
    ∧ List.Forall₂ (fun e r : Enemy =>
        r.rect = { e.rect with x := e.rect.x - (st.player.rect.x - SCROLL_THRESHOLD) }
        ∧ r.speed = e.speed ∧ r.alive = e.alive ∧ r.anim_timer = e.anim_timer
        ∧ r.dying = e.dying ∧ r.death_timer = e.death_timer
        ∧ r.platform.id = e.platform.id) st.enemies (scrollPhase st).enemies
    ∧ (scrollPhase st).game_over = st.game_over
    ∧ (scrollPhase st).enemy_spawn_timer = st.enemy_spawn_timer := by
  unfold scrollPhase
  rw [if_pos h]
  refine ⟨rfl, rfl, rfl, rfl, ?_, rfl, rfl⟩
  show List.Forall₂ _ st.enemies (st.enemies.map _)
  rw [List.forall₂_map_right_iff]
  rw [List.forall₂_same]
  intro e _
  refine ⟨rfl, rfl, rfl, rfl, rfl, rfl, ?_⟩
  show (if st.platforms.any (fun p => p.id == e.platform.id) = true
      then { e.platform with rect := shiftRect (st.player.rect.x - SCROLL_THRESHOLD) e.platform.rect }
      else e.platform).id = e.platform.id
  split <;> rfl

def c2state : GameState :=
  { player := { (Player.init 300 400) with vel_y := 3 },
    platforms := [⟨0, ⟨0, 540, 400, 32⟩⟩, ⟨1, ⟨460, 480, 100, 32⟩⟩],
    score := 5,
    slashes := [SlashProjectile.init 340 424 true],
    enemies := [],
    game_over := false,
    enemy_spawn_timer := 17,
    next_id := 2,
    rng := fun _ => 0 }

/-- Witness for C2 at a concrete state with the player at x = 300: the
shift is 34, the score goes from 5 to 39, the player is pinned to 266 and
the platforms move 34 left. -/
theorem C2_scroll_pass_witness :
    (scrollPhase c2state).score = 39
    ∧ (scrollPhase c2state).player.rect.x = 266
    ∧ (scrollPhase c2state).platforms
        = [⟨0, ⟨-34, 540, 400, 32⟩⟩, ⟨1, ⟨426, 480, 100, 32⟩⟩] := by
  have h := C2_scroll_pass c2state (by with_unfolding_all decide)
  refine ⟨?_, ?_, ?_⟩
  · rw [h.2.1]
    with_unfolding_all decide
  · rw [h.1]
    with_unfolding_all decide
  · rw [h.2.2.1]
    with_unfolding_all decide

/-! ### Claim C7: platform generation -/

theorem generate_platform_bounds (last : Platform) (nid : ℕ) (o : Oracle) :
    last.rect.x + last.rect.w + PLATFORM_GAP_MIN ≤ (generate_platform last nid o).1.rect.x
    ∧ (generate_platform last nid o).1.rect.x ≤ last.rect.x + last.rect.w + PLATFORM_GAP_MAX
    ∧ PLATFORM_MIN_WIDTH ≤ (generate_platform last nid o).1.rect.w
    ∧ (generate_platform last nid o).1.rect.w ≤ PLATFORM_MAX_WIDTH
    ∧ 200 ≤ (generate_platform last nid o).1.rect.y
    ∧ (generate_platform last nid o).1.rect.y ≤ SCREEN_HEIGHT - 80
    ∧ (generate_platform last nid o).1.rect.h = PLATFORM_HEIGHT
    ∧ (generate_platform last nid o).1.id = nid := by
  obtain ⟨hg1, hg2⟩ := randint_bounds PLATFORM_GAP_MIN PLATFORM_GAP_MAX o
    (by norm_num [PLATFORM_GAP_MIN, PLATFORM_GAP_MAX])
  obtain ⟨hw1, hw2⟩ := randint_bounds PLATFORM_MIN_WIDTH PLATFORM_MAX_WIDTH
    (randint PLATFORM_GAP_MIN PLATFORM_GAP_MAX o).2
    (by norm_num [PLATFORM_MIN_WIDTH, PLATFORM_MAX_WIDTH])
  refine ⟨?_, ?_, hw1, hw2, ?_, ?_, rfl, rfl⟩
  · show last.rect.x + last.rect.w + PLATFORM_GAP_MIN
      ≤ last.rect.x + last.rect.w + (randint PLATFORM_GAP_MIN PLATFORM_GAP_MAX o).1
    omega
  · show last.rect.x + last.rect.w + (randint PLATFORM_GAP_MIN PLATFORM_GAP_MAX o).1
      ≤ last.rect.x + last.rect.w + PLATFORM_GAP_MAX
    omega
  · exact le_max_left _ _
  · show max 200 (min _ (SCREEN_HEIGHT - 80)) ≤ SCREEN_HEIGHT - 80
    exact max_le (by norm_num [SCREEN_HEIGHT]) (min_le_right _ _)

theorem lastRight_concat (l : List Platform) (a : Platform) :
    lastRight (l ++ [a]) = a.rect.x + a.rect.w := by
  unfold lastRight
  rw [List.getLastD_concat]

theorem genLoopFuel_last (t : ℤ) (fuel : ℕ) :
    ∀ (plats : List Platform) (nid : ℕ) (o : Oracle),
      t - lastRight plats ≤ (fuel : ℤ) →
      t ≤ lastRight (genLoopFuel t fuel plats nid o).1 := by
  induction fuel with
  | zero =>
    intro plats nid o hf
    show t ≤ lastRight plats
    omega
  | succ f ih =>
    intro plats nid o hf
    rw [genLoopFuel_succ]
    split
    · rename_i hlt
      apply ih
      rw [lastRight_concat]
      have hb := generate_platform_bounds (plats.getLastD dummyPlatform) nid o
      have hx := hb.1
      have hw := hb.2.2.1
      rw [PLATFORM_GAP_MIN] at hx
      rw [PLATFORM_MIN_WIDTH] at hw
      unfold lastRight at hf hlt
      omega
    · rename_i hge
      show t ≤ lastRight plats
      omega

theorem genLoop_last (t : ℤ) (plats : List Platform) (nid : ℕ) (o : Oracle) :
    t ≤ lastRight (genLoop t plats nid o).1 := by
  unfold genLoop
  apply genLoopFuel_last
  exact Int.self_le_toNat _

theorem reset_game_parts (nid : ℕ) (o : Oracle) :
    (reset_game nid o).2
      = ((genLoop (SCREEN_WIDTH + 400) [startPlatform nid] (nid + 1) o).1,
         (genLoop (SCREEN_WIDTH + 400) [startPlatform nid] (nid + 1) o).2.1,
         (genLoop (SCREEN_WIDTH + 400) [startPlatform nid] (nid + 1) o).2.2) := rfl

theorem reset_game_platforms (nid : ℕ) (o : Oracle) :
    (reset_game nid o).2.1
      = (genLoop (SCREEN_WIDTH + 400) [startPlatform nid] (nid + 1) o).1 := by
  rw [reset_game_parts]

theorem reset_game_player (nid : ℕ) (o : Oracle) :
    (reset_game nid o).1 = Player.init 100 (SCREEN_HEIGHT - 60 - PLAYER_HEIGHT) := rfl

theorem resetStateOf_def (nid : ℕ) (o : Oracle) :
    resetStateOf nid o =
      { player := (reset_game nid o).1, platforms := (reset_game nid o).2.1, score := 0,
        slashes := [], enemies := [], game_over := false, enemy_spawn_timer := 0,
        next_id := (reset_game nid o).2.2.1, rng := (reset_game nid o).2.2.2 } := rfl

theorem resetStateOf_platforms (nid : ℕ) (o : Oracle) :
    (resetStateOf nid o).platforms
      = (genLoop (SCREEN_WIDTH + 400) [startPlatform nid] (nid + 1) o).1 := by
  rw [resetStateOf_def, reset_game_parts]

/-- Claim C7: after the generation pass of the main loop the rightmost
platform right edge is at least SCREEN_WIDTH + 300, after the pass of
reset_game it is too (that pass generates out to SCREEN_WIDTH + 400);
every generated platform lies strictly right of its predecessor with gap
in [PLATFORM_GAP_MIN, PLATFORM_GAP_MAX], width in
[PLATFORM_MIN_WIDTH, PLATFORM_MAX_WIDTH] and y clamped to
[200, SCREEN_HEIGHT - 80]; the pass adds at least 160 to the frontier per
platform, so the loop terminates (the fuel bound of genLoop suffices). -/
theorem C7_platform_generation (st : GameState) (nid nid2 : ℕ) (o o2 : Oracle)
    (last : Platform) :
    (SCREEN_WIDTH + 300 ≤ lastRight (genPhase st).platforms)
    ∧ (SCREEN_WIDTH + 300 ≤ lastRight (reset_game nid o).2.1)
    ∧ (last.rect.x + last.rect.w < (generate_platform last nid2 o2).1.rect.x
      ∧ last.rect.x + last.rect.w + PLATFORM_GAP_MIN ≤ (generate_platform last nid2 o2).1.rect.x
      ∧ (generate_platform last nid2 o2).1.rect.x ≤ last.rect.x + last.rect.w + PLATFORM_GAP_MAX
      ∧ PLATFORM_MIN_WIDTH ≤ (generate_platform last nid2 o2).1.rect.w
      ∧ (generate_platform last nid2 o2).1.rect.w ≤ PLATFORM_MAX_WIDTH
      ∧ 200 ≤ (generate_platform last nid2 o2).1.rect.y
      ∧ (generate_platform last nid2 o2).1.rect.y ≤ SCREEN_HEIGHT - 80) := by
  have hb := generate_platform_bounds last nid2 o2
  refine ⟨?_, ?_, ?_, hb.1, hb.2.1, hb.2.2.1, hb.2.2.2.1, hb.2.2.2.2.1, hb.2.2.2.2.2.1⟩
  · exact genLoop_last _ _ _ _
  · rw [reset_game_platforms]
    exact le_trans (by omega)
      (genLoop_last (SCREEN_WIDTH + 400) [startPlatform nid] (nid + 1) o)
  · have := hb.1
    rw [PLATFORM_GAP_MIN] at this
    omega

/-- Witness for C7 at a concrete one-platform list and the zero oracle:
the generation pass pushes the frontier past 1100. -/
theorem C7_platform_generation_witness :
    1100 ≤ lastRight (genPhase
      { player := Player.init 100 492,
        platforms := [⟨0, ⟨0, 540, 400, 32⟩⟩],
        score := 0, slashes := [], enemies := [], game_over := false,
        enemy_spawn_timer := 0, next_id := 1, rng := fun _ => 0 }).platforms := by
  have h := (C7_platform_generation
    { player := Player.init 100 492,
      platforms := [⟨0, ⟨0, 540, 400, 32⟩⟩],
      score := 0, slashes := [], enemies := [], game_over := false,
      enemy_spawn_timer := 0, next_id := 1, rng := fun _ => 0 }
    0 0 (fun _ => 0) (fun _ => 0) dummyPlatform).1
  calc (1100:ℤ) ≤ SCREEN_WIDTH + 300 := by norm_num [SCREEN_WIDTH]
  _ ≤ _ := h

/-! ### Claim C4, counterexample: a reachable airborne sprint below the
stamina minimum -/

/-- Hold right and shift. -/
def c4keysR : Keys := ⟨false, true, false, false, true, false⟩

/-- Hold left and shift. -/
def c4keysL : Keys := ⟨true, false, false, false, true, false⟩

/-- The all-zeros oracle (every randint draws its lower bound). -/
def c4oracle : Oracle := fun _ => 0

/-- 77 frames of sprinting left and right on the starting bridge: the
player oscillates between x = 100 and x = 109, never scrolls, and drains
stamina from 100 to exactly 10 while still sprinting (the landing check
leaves the standing player airborne every other frame, and the airborne
sprint rule only requires stamina above 0). -/
def c4state : GameState :=
  runScript ((List.range 77).map (fun i => if i % 2 = 0 then c4keysR else c4keysL))
    (initState c4oracle)

/-- Claim C4 counterexample: in the reachable state c4state the player has
stamina 10 = STAMINA_MIN_TO_SPRINT, and handle_input with shift held keeps
the sprint flag true, so sprint is not disabled at stamina equal to the
configured minimum in the air. -/
theorem C4_counterexample :
    ∃ st : GameState, Reach st ∧ ∃ keys : Keys,
      (st.player.handle_input keys st.slashes).1.stamina ≤ STAMINA_MIN_TO_SPRINT
      ∧ (st.player.handle_input keys st.slashes).1.sprinting = true := by
  refine ⟨c4state, reach_runScript _ _ (Reach.init c4oracle), c4keysR, ?_, ?_⟩
  · with_unfolding_all decide
  · with_unfolding_all decide

/-! ### Claim C5: death raises game over; a key press restarts -/

theorem take_damage_keeps (p : Player) :
    p.take_damage.rect = p.rect ∧ p.take_damage.vel_y = p.vel_y
    ∧ p.take_damage.on_ground = p.on_ground ∧ p.take_damage.hp ≤ p.hp := by
  unfold Player.take_damage
  split_ifs
  · exact ⟨rfl, rfl, rfl, le_refl _⟩
  · refine ⟨rfl, rfl, rfl, ?_⟩
    show p.hp - 1 ≤ p.hp
    omega

theorem handle_input_keeps (p : Player) (k : Keys) (sl : List SlashProjectile) :
    (p.handle_input k sl).1.hp = p.hp
    ∧ (p.handle_input k sl).1.invincible = p.invincible
    ∧ (p.handle_input k sl).1.rect.y = p.rect.y
    ∧ (p.handle_input k sl).1.rect.w = p.rect.w
    ∧ (p.handle_input k sl).1.rect.h = p.rect.h :=
  ⟨rfl, rfl, rfl, rfl, rfl⟩

theorem handle_input_air (p : Player) (k : Keys) (sl : List SlashProjectile)
    (h : p.on_ground = false) :
    (p.handle_input k sl).1.vel_y = p.vel_y ∧ (p.handle_input k sl).1.on_ground = false := by
  have h1 : (p.handle_input k sl).1.vel_y
      = (if k.space = true ∧ p.on_ground = true then ((JUMP_FORCE : ℚ), false)
         else (p.vel_y, p.on_ground)).1 := rfl
  have h2 : (p.handle_input k sl).1.on_ground
      = (if k.space = true ∧ p.on_ground = true then ((JUMP_FORCE : ℚ), false)
         else (p.vel_y, p.on_ground)).2 := rfl
  rw [h1, h2, if_neg (by simp [h])]
  exact ⟨rfl, h⟩

theorem update_stamina_keeps (p : Player) :
    p.update_stamina.hp = p.hp ∧ p.update_stamina.invincible = p.invincible
    ∧ p.update_stamina.rect = p.rect ∧ p.update_stamina.vel_y = p.vel_y
    ∧ p.update_stamina.on_ground = p.on_ground := by
  unfold Player.update_stamina
  split_ifs <;> exact ⟨rfl, rfl, rfl, rfl, rfl⟩

theorem update_animation_keeps (p : Player) :
    p.update_animation.hp = p.hp ∧ p.update_animation.invincible = p.invincible
    ∧ p.update_animation.rect = p.rect ∧ p.update_animation.vel_y = p.vel_y
    ∧ p.update_animation.on_ground = p.on_ground := by
  unfold Player.update_animation
  split_ifs <;> exact ⟨rfl, rfl, rfl, rfl, rfl⟩

theorem update_invincible_keeps (p : Player) :
    p.update_invincible.hp = p.hp ∧ p.update_invincible.rect = p.rect
    ∧ p.update_invincible.vel_y = p.vel_y
    ∧ p.update_invincible.on_ground = p.on_ground := by
  unfold Player.update_invincible
  split_ifs <;> exact ⟨rfl, rfl, rfl, rfl⟩

theorem apply_gravity_spec (p : Player) :
    p.apply_gravity.vel_y = p.vel_y + GRAVITY
    ∧ p.apply_gravity.rect.y = p.rect.y + pyInt (p.vel_y + GRAVITY)
    ∧ p.apply_gravity.rect.x = p.rect.x ∧ p.apply_gravity.rect.w = p.rect.w
    ∧ p.apply_gravity.rect.h = p.rect.h
    ∧ p.apply_gravity.hp = p.hp ∧ p.apply_gravity.on_ground = p.on_ground :=
  ⟨rfl, rfl, rfl, rfl, rfl, rfl, rfl⟩

theorem collide_loop_hp (p : Player) (l : List Platform) :
    (collide_loop p l).hp = p.hp := by
  induction l with
  | nil => rfl
  | cons plat rest ih =>
    rw [collide_loop_cons]
    split_ifs
    · rfl
    · exact ih

theorem check_platform_collision_hp (p : Player) (l : List Platform) :
    (p.check_platform_collision l).hp = p.hp :=
  collide_loop_hp _ _

theorem no_overlap_collision (p : Player) (l : List Platform)
    (h : ∀ q ∈ l, ¬ Rect.collides p.rect q.rect) :
    p.check_platform_collision l = { p with on_ground := false } :=
  collide_loop_none _ _ (fun q hq hl => h q hq hl.1)

theorem pyInt_nonneg (q : ℚ) (h : 0 ≤ q) : 0 ≤ pyInt q := by
  rw [pyInt_of_nonneg q h]
  exact Int.floor_nonneg.mpr h

theorem playerPhase_player (keys : Keys) (st : GameState) :
    (playerPhase keys st).player
      = (((((st.player.handle_input keys st.slashes).1.update_stamina).update_animation).update_invincible).apply_gravity).check_platform_collision
          st.platforms := rfl

theorem playerPhase_keeps (keys : Keys) (st : GameState) :
    (playerPhase keys st).game_over = st.game_over
    ∧ (playerPhase keys st).score = st.score
    ∧ (playerPhase keys st).enemies = st.enemies
    ∧ (playerPhase keys st).platforms = st.platforms
    ∧ (playerPhase keys st).enemy_spawn_timer = st.enemy_spawn_timer
    ∧ (playerPhase keys st).next_id = st.next_id
    ∧ (playerPhase keys st).rng = st.rng :=
  ⟨rfl, rfl, rfl, rfl, rfl, rfl, rfl⟩

theorem slashUpdatePhase_keeps (st : GameState) :
    (slashUpdatePhase st).player = st.player
    ∧ (slashUpdatePhase st).game_over = st.game_over
    ∧ (slashUpdatePhase st).score = st.score
    ∧ (slashUpdatePhase st).enemies = st.enemies
    ∧ (slashUpdatePhase st).platforms = st.platforms
    ∧ (slashUpdatePhase st).enemy_spawn_timer = st.enemy_spawn_timer
    ∧ (slashUpdatePhase st).next_id = st.next_id
    ∧ (slashUpdatePhase st).rng = st.rng :=
  ⟨rfl, rfl, rfl, rfl, rfl, rfl, rfl, rfl⟩

theorem enemyUpdatePhase_keeps (st : GameState) :
    (enemyUpdatePhase st).player = st.player
    ∧ (enemyUpdatePhase st).game_over = st.game_over
    ∧ (enemyUpdatePhase st).score = st.score
    ∧ (enemyUpdatePhase st).slashes = st.slashes
    ∧ (enemyUpdatePhase st).platforms = st.platforms
    ∧ (enemyUpdatePhase st).enemy_spawn_timer = st.enemy_spawn_timer
    ∧ (enemyUpdatePhase st).next_id = st.next_id
    ∧ (enemyUpdatePhase st).rng = st.rng :=
  ⟨rfl, rfl, rfl, rfl, rfl, rfl, rfl, rfl⟩

theorem enemyUpdatePhase_enemies (st : GameState) :
    (enemyUpdatePhase st).enemies
      = (st.enemies.map Enemy.update).filter (fun e => !decide e.is_finished) := rfl

theorem slashHitPhase_keeps (st : GameState) :
    (slashHitPhase st).player = st.player
    ∧ (slashHitPhase st).game_over = st.game_over
    ∧ (slashHitPhase st).platforms = st.platforms
    ∧ (slashHitPhase st).enemy_spawn_timer = st.enemy_spawn_timer
    ∧ (slashHitPhase st).next_id = st.next_id
    ∧ (slashHitPhase st).rng = st.rng :=
  ⟨rfl, rfl, rfl, rfl, rfl, rfl⟩

theorem slashHitPhase_score (st : GameState) :
    (slashHitPhase st).score = st.score + (slashHits st.slashes st.enemies).2.2 := rfl

theorem slashHitPhase_enemies (st : GameState) :
    (slashHitPhase st).enemies = (slashHits st.slashes st.enemies).2.1 := rfl

theorem slashHits_no_enemies (sls : List SlashProjectile) :
    slashHits sls [] = (sls, [], 0) := by
  induction sls with
  | nil => rfl
  | cons s rest ih =>
    show (match killFirst s [] with
      | some ens2 =>
        ({ s with life := 0 } :: (slashHits rest ens2).1, (slashHits rest ens2).2.1,
          (slashHits rest ens2).2.2 + ENEMY_KILL_SCORE)
      | none => (s :: (slashHits rest []).1, (slashHits rest []).2.1, (slashHits rest []).2.2))
      = (s :: rest, [], 0)
    rw [show killFirst s [] = none from rfl]
    rw [ih]

theorem damagePhase_keeps (st : GameState) :
    (damagePhase st).game_over = st.game_over
    ∧ (damagePhase st).score = st.score
    ∧ (damagePhase st).slashes = st.slashes
    ∧ (damagePhase st).enemies = st.enemies
    ∧ (damagePhase st).platforms = st.platforms
    ∧ (damagePhase st).enemy_spawn_timer = st.enemy_spawn_timer
    ∧ (damagePhase st).next_id = st.next_id
    ∧ (damagePhase st).rng = st.rng :=
  ⟨rfl, rfl, rfl, rfl, rfl, rfl, rfl, rfl⟩

theorem damagePhase_player (st : GameState) :
    (damagePhase st).player = st.enemies.foldl damageStep st.player := rfl

theorem damage_fold_keeps (ens : List Enemy) (pl : Player) :
    (ens.foldl damageStep pl).rect = pl.rect
    ∧ (ens.foldl damageStep pl).vel_y = pl.vel_y
    ∧ (ens.foldl damageStep pl).on_ground = pl.on_ground
    ∧ (ens.foldl damageStep pl).hp ≤ pl.hp := by
  induction ens generalizing pl with
  | nil => exact ⟨rfl, rfl, rfl, le_refl _⟩
  | cons e rest ih =>
    rw [List.foldl_cons]
    obtain ⟨i1, i2, i3, i4⟩ := ih (damageStep pl e)
    have hs : (damageStep pl e).rect = pl.rect ∧ (damageStep pl e).vel_y = pl.vel_y
        ∧ (damageStep pl e).on_ground = pl.on_ground ∧ (damageStep pl e).hp ≤ pl.hp := by
      unfold damageStep
      split_ifs
      · exact take_damage_keeps pl
      · exact ⟨rfl, rfl, rfl, le_refl _⟩
    exact ⟨i1.trans hs.1, i2.trans hs.2.1, i3.trans hs.2.2.1, le_trans i4 hs.2.2.2⟩

theorem scrollPhase_keeps (st : GameState) :
    (scrollPhase st).game_over = st.game_over
    ∧ (scrollPhase st).enemy_spawn_timer = st.enemy_spawn_timer
    ∧ (scrollPhase st).next_id = st.next_id
    ∧ (scrollPhase st).rng = st.rng
    ∧ (scrollPhase st).player.rect.y = st.player.rect.y
    ∧ (scrollPhase st).player.rect.w = st.player.rect.w
    ∧ (scrollPhase st).player.rect.h = st.player.rect.h
    ∧ (scrollPhase st).player.hp = st.player.hp
    ∧ (scrollPhase st).player.vel_y = st.player.vel_y
    ∧ (scrollPhase st).player.on_ground = st.player.on_ground := by
  unfold scrollPhase
  split_ifs <;> exact ⟨rfl, rfl, rfl, rfl, rfl, rfl, rfl, rfl, rfl, rfl⟩

theorem scrollPhase_noop (st : GameState) (h : ¬ SCROLL_THRESHOLD < st.player.rect.x) :
    scrollPhase st = st := by
  unfold scrollPhase
  rw [if_neg h]

theorem genPhase_keeps (st : GameState) :
    (genPhase st).player = st.player
    ∧ (genPhase st).game_over = st.game_over
    ∧ (genPhase st).score = st.score
    ∧ (genPhase st).slashes = st.slashes
    ∧ (genPhase st).enemies = st.enemies
    ∧ (genPhase st).enemy_spawn_timer = st.enemy_spawn_timer :=
  ⟨rfl, rfl, rfl, rfl, rfl, rfl⟩

theorem genLoop_noop (t : ℤ) (plats : List Platform) (nid : ℕ) (o : Oracle)
    (h : t ≤ lastRight plats) : genLoop t plats nid o = (plats, nid, o) := by
  unfold genLoop
  rw [Int.toNat_of_nonpos (by omega)]
  exact genLoopFuel_zero _ _ _ _

theorem genPhase_noop (st : GameState)
    (h : SCREEN_WIDTH + 300 ≤ lastRight st.platforms) : genPhase st = st := by
  unfold genPhase
  rw [genLoop_noop _ _ _ _ h]

theorem spawnPhase_keeps (st : GameState) :
    (spawnPhase st).player = st.player
    ∧ (spawnPhase st).game_over = st.game_over
    ∧ (spawnPhase st).score = st.score
    ∧ (spawnPhase st).slashes = st.slashes
    ∧ (spawnPhase st).platforms = st.platforms
    ∧ (spawnPhase st).next_id = st.next_id := by
  unfold spawnPhase
  dsimp only
  split_ifs <;> exact ⟨rfl, rfl, rfl, rfl, rfl, rfl⟩

theorem spawnPhase_low (st : GameState)
    (h : ¬ ENEMY_SPAWN_INTERVAL ≤ st.enemy_spawn_timer + 1) :
    spawnPhase st = { st with enemy_spawn_timer := st.enemy_spawn_timer + 1 } := by
  unfold spawnPhase
  rw [if_neg h]

theorem removePhase_keeps (st : GameState) :
    (removePhase st).player = st.player
    ∧ (removePhase st).game_over = st.game_over
    ∧ (removePhase st).score = st.score
    ∧ (removePhase st).slashes = st.slashes
    ∧ (removePhase st).enemy_spawn_timer = st.enemy_spawn_timer
    ∧ (removePhase st).next_id = st.next_id
    ∧ (removePhase st).rng = st.rng :=
  ⟨rfl, rfl, rfl, rfl, rfl, rfl, rfl⟩

theorem clampPhase_keeps (st : GameState) :
    (clampPhase st).game_over = st.game_over
    ∧ (clampPhase st).score = st.score
    ∧ (clampPhase st).player.rect.y = st.player.rect.y
    ∧ (clampPhase st).player.hp = st.player.hp := by
  unfold clampPhase
  split_ifs <;> exact ⟨rfl, rfl, rfl, rfl⟩

theorem deathPhase_gameover (st : GameState) (h : st.player.is_dead) :
    (deathPhase st).game_over = true := by
  unfold deathPhase
  rw [if_pos h]

theorem deathPhase_not (st : GameState) (h : ¬ st.player.is_dead) :
    deathPhase st = st := by
  unfold deathPhase
  rw [if_neg h]

theorem eventPhase_not_over (evs : List Bool) (st : GameState) (h : st.game_over = false) :
    eventPhase evs st = st := by
  induction evs with
  | nil => rfl
  | cons ev rest ih =>
    show eventPhase rest
      (if ev = true ∧ st.game_over = true then resetStateOf st.next_id st.rng else st) = st
    rw [if_neg (by simp [h])]
    exact ih

theorem resetStateOf_game_over (nid : ℕ) (o : Oracle) :
    (resetStateOf nid o).game_over = false := rfl

theorem eventPhase_restart (evs : List Bool) (st : GameState) (h : st.game_over = true)
    (hk : true ∈ evs) :
    eventPhase evs st = resetStateOf st.next_id st.rng := by
  induction evs with
  | nil => cases hk
  | cons ev rest ih =>
    show eventPhase rest
      (if ev = true ∧ st.game_over = true then resetStateOf st.next_id st.rng else st) = _
    cases ev with
    | false =>
      rw [if_neg (by simp)]
      exact ih (by simpa using hk)
    | true =>
      rw [if_pos ⟨rfl, h⟩]
      exact eventPhase_not_over rest _ (resetStateOf_game_over _ _)

/-- The death condition together with the side facts that hold of every
reachable state where it holds: when dead by falling, the player carries
nonnegative vertical velocity, is not grounded, and every platform lies
entirely above the bottom of the screen. -/
def DeadReady (st : GameState) : Prop :=
  st.player.hp ≤ 0 ∨
    (SCREEN_HEIGHT < st.player.rect.y ∧ st.player.on_ground = false
      ∧ 0 ≤ st.player.vel_y
      ∧ ∀ p ∈ st.platforms, p.rect.y + p.rect.h ≤ SCREEN_HEIGHT)

theorem updatePhase_dead (keys : Keys) (st : GameState)
    (h0 : st.game_over = false) (hd : DeadReady st) :
    (updatePhase keys st).game_over = true := by
  unfold updatePhase
  rw [if_neg (by simp [h0])]
  apply deathPhase_gameover
  set st1 := playerPhase keys st with hst1
  set st4 := slashHitPhase (enemyUpdatePhase (slashUpdatePhase st1)) with hst4
  have h41 : st4.player = st1.player := by
    rw [hst4, (slashHitPhase_keeps _).1, (enemyUpdatePhase_keeps _).1,
      (slashUpdatePhase_keeps _).1]
  set st5 := damagePhase st4 with hst5
  set st9 := removePhase (spawnPhase (genPhase (scrollPhase st5))) with hst9
  have h95 : st9.player = (scrollPhase st5).player := by
    rw [hst9, (removePhase_keeps _).1, (spawnPhase_keeps _).1, (genPhase_keeps _).1]
  have hcy : (clampPhase st9).player.rect.y = st1.player.rect.y := by
    rw [(clampPhase_keeps _).2.2.1, h95, (scrollPhase_keeps _).2.2.2.2.1, hst5,
      damagePhase_player, (damage_fold_keeps _ _).1, h41]
  have hchp : (clampPhase st9).player.hp ≤ st1.player.hp := by
    have h1 := (clampPhase_keeps st9).2.2.2
    have h2 := (scrollPhase_keeps st5).2.2.2.2.2.2.2.1
    have h3 := (damage_fold_keeps st4.enemies st4.player).2.2.2
    rw [h1, h95, h2, hst5, damagePhase_player, h41]
    rw [h41] at h3
    exact h3
  rcases hd with hhp | ⟨hy, hgr, hvel, hplat⟩
  · right
    have hp1 : st1.player.hp = st.player.hp := by
      rw [hst1, playerPhase_player, check_platform_collision_hp,
        (apply_gravity_spec _).2.2.2.2.2.1, (update_invincible_keeps _).1,
        (update_animation_keeps _).1, (update_stamina_keeps _).1,
        (handle_input_keeps _ _ _).1]
    omega
  · left
    show SCREEN_HEIGHT < (clampPhase st9).player.rect.y
    rw [hcy]
    set p1 := (st.player.handle_input keys st.slashes).1 with hp1
    have hair := handle_input_air st.player keys st.slashes hgr
    set p4 := ((p1.update_stamina).update_animation).update_invincible with hp4
    have h4r : p4.rect = p1.rect := by
      rw [hp4, (update_invincible_keeps _).2.1, (update_animation_keeps _).2.2.1,
        (update_stamina_keeps _).2.2.1]
    have h4v : p4.vel_y = st.player.vel_y := by
      rw [hp4, (update_invincible_keeps _).2.2.1, (update_animation_keeps _).2.2.2.1,
        (update_stamina_keeps _).2.2.2.1, hp1, hair.1]
    have hy5 : p4.apply_gravity.rect.y = st.player.rect.y + pyInt (st.player.vel_y + GRAVITY) := by
      rw [(apply_gravity_spec _).2.1, h4r, h4v, hp1, (handle_input_keeps _ _ _).2.2.1]
    have hylb : SCREEN_HEIGHT < p4.apply_gravity.rect.y := by
      rw [hy5]
      have : 0 ≤ pyInt (st.player.vel_y + GRAVITY) := by
        apply pyInt_nonneg
        rw [GRAVITY]
        linarith
      omega
    have hnc : ∀ q ∈ st.platforms, ¬ Rect.collides p4.apply_gravity.rect q.rect := by
      intro q hq hc
      have h3 := hc.2.2.1
      have hqb := hplat q hq
      omega
    have hcoll : p4.apply_gravity.check_platform_collision st.platforms
        = { p4.apply_gravity with on_ground := false } :=
      no_overlap_collision _ _ hnc
    rw [hst1, playerPhase_player]
    rw [← hp1, ← hp4, hcoll]
    exact hylb

theorem genLoopFuel_extend (t : ℤ) (fuel : ℕ) :
    ∀ (plats : List Platform) (nid : ℕ) (o : Oracle),
      ∃ ex : List Platform, (genLoopFuel t fuel plats nid o).1 = plats ++ ex
        ∧ ∀ p ∈ ex, lastRight plats + PLATFORM_GAP_MIN ≤ p.rect.x := by
  induction fuel with
  | zero =>
    intro plats nid o
    exact ⟨[], by rw [genLoopFuel_zero, List.append_nil], by simp⟩
  | succ f ih =>
    intro plats nid o
    rw [genLoopFuel_succ]
    split_ifs with hlt
    · obtain ⟨ex, hex, hb⟩ := ih
        (plats ++ [(generate_platform (plats.getLastD dummyPlatform) nid o).1]) (nid + 1)
        (generate_platform (plats.getLastD dummyPlatform) nid o).2
      refine ⟨(generate_platform (plats.getLastD dummyPlatform) nid o).1 :: ex, ?_, ?_⟩
      · rw [hex, List.append_assoc]
        rfl
      · intro p hp
        have hgx := (generate_platform_bounds (plats.getLastD dummyPlatform) nid o).1
        have hgw := (generate_platform_bounds (plats.getLastD dummyPlatform) nid o).2.2.1
        rcases List.mem_cons.mp hp with h1 | h2
        · subst h1
          unfold lastRight
          exact hgx
        · have hb2 := hb p h2
          rw [lastRight_concat] at hb2
          rw [PLATFORM_GAP_MIN] at hgx hb2 ⊢
          rw [PLATFORM_MIN_WIDTH] at hgw
          unfold lastRight
          omega
    · exact ⟨[], by rw [List.append_nil], by simp⟩

theorem reset_platforms_spec (nid : ℕ) (o : Oracle) :
    ∃ ex : List Platform, (resetStateOf nid o).platforms = startPlatform nid :: ex
      ∧ ∀ p ∈ ex, 460 ≤ p.rect.x := by
  rw [resetStateOf_platforms]
  unfold genLoop
  obtain ⟨ex, hex, hb⟩ := genLoopFuel_extend (SCREEN_WIDTH + 400)
    ((SCREEN_WIDTH + 400 - lastRight [startPlatform nid]).toNat) [startPlatform nid] (nid + 1) o
  refine ⟨ex, by rw [hex]; rfl, fun p hp => ?_⟩
  have h := hb p hp
  have hlr : lastRight [startPlatform nid] = 400 := rfl
  rw [hlr, PLATFORM_GAP_MIN] at h
  omega

theorem handle_input_reset (keys : Keys) (sl : List SlashProjectile) :
    ((Player.init 100 (SCREEN_HEIGHT - 60 - PLAYER_HEIGHT)).handle_input keys sl).1.rect.y = 492
    ∧ (((Player.init 100 (SCREEN_HEIGHT - 60 - PLAYER_HEIGHT)).handle_input keys sl).1.rect.x = 95
      ∨ ((Player.init 100 (SCREEN_HEIGHT - 60 - PLAYER_HEIGHT)).handle_input keys sl).1.rect.x = 100
      ∨ ((Player.init 100 (SCREEN_HEIGHT - 60 - PLAYER_HEIGHT)).handle_input keys sl).1.rect.x = 105)
    ∧ ((Player.init 100 (SCREEN_HEIGHT - 60 - PLAYER_HEIGHT)).handle_input keys sl).1.rect.w = 32
    ∧ ((Player.init 100 (SCREEN_HEIGHT - 60 - PLAYER_HEIGHT)).handle_input keys sl).1.rect.h = 48
    ∧ ((Player.init 100 (SCREEN_HEIGHT - 60 - PLAYER_HEIGHT)).handle_input keys sl).1.vel_y = 0
    ∧ ((Player.init 100 (SCREEN_HEIGHT - 60 - PLAYER_HEIGHT)).handle_input keys sl).1.hp = 5 := by
  rcases keys with ⟨kl, kr, ks, kz, kls, krs⟩
  cases kl <;> cases kr <;> cases ks <;>
    refine ⟨rfl, ?_, rfl, rfl, rfl, rfl⟩ <;>
    first
      | exact Or.inl rfl
      | exact Or.inr (Or.inl rfl)
      | exact Or.inr (Or.inr rfl)

theorem resetStateOf_fields (nid : ℕ) (o : Oracle) :
    (resetStateOf nid o).player = Player.init 100 (SCREEN_HEIGHT - 60 - PLAYER_HEIGHT)
    ∧ (resetStateOf nid o).score = 0
    ∧ (resetStateOf nid o).slashes = []
    ∧ (resetStateOf nid o).enemies = []
    ∧ (resetStateOf nid o).enemy_spawn_timer = 0 :=
  ⟨rfl, rfl, rfl, rfl, rfl⟩

theorem updatePhase_reset (keys : Keys) (nid : ℕ) (o : Oracle) :
    (updatePhase keys (resetStateOf nid o)).score = 0
    ∧ (updatePhase keys (resetStateOf nid o)).game_over = false := by
  obtain ⟨hpl, hsc, hsl, hen, hti⟩ := resetStateOf_fields nid o
  obtain ⟨ex, hplats, hex⟩ := reset_platforms_spec nid o
  have hlast : SCREEN_WIDTH + 400 ≤ lastRight (resetStateOf nid o).platforms := by
    rw [resetStateOf_platforms]
    exact genLoop_last _ _ _ _
  unfold updatePhase
  rw [if_neg (by rw [resetStateOf_game_over]; simp)]
  set st1 := playerPhase keys (resetStateOf nid o) with hst1
  set st2 := slashUpdatePhase st1 with hst2
  set st3 := enemyUpdatePhase st2 with hst3
  set st4 := slashHitPhase st3 with hst4
  set st5 := damagePhase st4 with hst5
  -- the player pipeline of playerPhase on the fresh player
  obtain ⟨h1y, h1xor, h1w, h1h, h1v, h1hp⟩ := handle_input_reset keys []
  set p1 := ((Player.init 100 (SCREEN_HEIGHT - 60 - PLAYER_HEIGHT)).handle_input keys []).1
    with hdefp1
  have h1x1 : 95 ≤ p1.rect.x := by
    rcases h1xor with h | h | h <;> rw [h] <;> norm_num
  have h1x2 : p1.rect.x ≤ 105 := by
    rcases h1xor with h | h | h <;> rw [h] <;> norm_num
  set p4 := ((p1.update_stamina).update_animation).update_invincible with hdefp4
  have hp4r : p4.rect = p1.rect := by
    rw [hdefp4, (update_invincible_keeps _).2.1, (update_animation_keeps _).2.2.1,
      (update_stamina_keeps _).2.2.1]
  have hp4v : p4.vel_y = 0 := by
    rw [hdefp4, (update_invincible_keeps _).2.2.1, (update_animation_keeps _).2.2.2.1,
      (update_stamina_keeps _).2.2.2.1, h1v]
  have hp4hp : p4.hp = 5 := by
    rw [hdefp4, (update_invincible_keeps _).1, (update_animation_keeps _).1,
      (update_stamina_keeps _).1, h1hp]
  have hpy0 : pyInt ((0:ℚ) + GRAVITY) = 0 := by with_unfolding_all decide
  have h5y : p4.apply_gravity.rect.y = 492 := by
    rw [(apply_gravity_spec _).2.1, hp4r, hp4v, hpy0, h1y]
    norm_num
  have h5x1 : 95 ≤ p4.apply_gravity.rect.x := by
    rw [(apply_gravity_spec _).2.2.1, hp4r]
    exact h1x1
  have h5x2 : p4.apply_gravity.rect.x ≤ 105 := by
    rw [(apply_gravity_spec _).2.2.1, hp4r]
    exact h1x2
  have h5w : p4.apply_gravity.rect.w = 32 := by
    rw [(apply_gravity_spec _).2.2.2.1, hp4r, h1w]
  have h5h : p4.apply_gravity.rect.h = 48 := by
    rw [(apply_gravity_spec _).2.2.2.2.1, hp4r, h1h]
  have h5hp : p4.apply_gravity.hp = 5 := by
    rw [(apply_gravity_spec _).2.2.2.2.2.1, hp4hp]
  have hnc : ∀ q ∈ startPlatform nid :: ex, ¬ Rect.collides p4.apply_gravity.rect q.rect := by
    intro q hq hc
    rcases List.mem_cons.mp hq with h1 | hmem
    · subst h1
      have h4 := hc.2.2.2
      have hsy : (startPlatform nid).rect.y = 540 := rfl
      omega
    · have h2 := hc.2.1
      have := hex q hmem
      omega
  have hP1 : st1.player = { p4.apply_gravity with on_ground := false } := by
    rw [hst1, playerPhase_player, hpl, hsl, hplats, ← hdefp1, ← hdefp4]
    exact no_overlap_collision _ _ hnc
  have hq := hP1
  have h1py : st1.player.rect.y = 492 := by rw [hP1]; exact h5y
  have h1px : st1.player.rect.x ≤ 105 := by rw [hP1]; exact h5x2
  have h1php : st1.player.hp = 5 := by rw [hP1]; exact h5hp
  -- bookkeeping through the later phases
  have hgo1 : st1.game_over = false := by
    rw [hst1, (playerPhase_keeps keys _).1, resetStateOf_game_over]
  have hsc1 : st1.score = 0 := by rw [hst1, (playerPhase_keeps keys _).2.1, hsc]
  have hen1 : st1.enemies = [] := by rw [hst1, (playerPhase_keeps keys _).2.2.1, hen]
  have hplat1 : st1.platforms = (resetStateOf nid o).platforms := by
    rw [hst1, (playerPhase_keeps keys _).2.2.2.1]
  have hti1 : st1.enemy_spawn_timer = 0 := by
    rw [hst1, (playerPhase_keeps keys _).2.2.2.2.1, hti]
  have hpl2 : st2.player = st1.player := by rw [hst2, (slashUpdatePhase_keeps _).1]
  have hgo2 : st2.game_over = false := by rw [hst2, (slashUpdatePhase_keeps _).2.1, hgo1]
  have hsc2 : st2.score = 0 := by rw [hst2, (slashUpdatePhase_keeps _).2.2.1, hsc1]
  have hen2 : st2.enemies = [] := by rw [hst2, (slashUpdatePhase_keeps _).2.2.2.1, hen1]
  have hplat2 : st2.platforms = (resetStateOf nid o).platforms := by
    rw [hst2, (slashUpdatePhase_keeps _).2.2.2.2.1, hplat1]
  have hti2 : st2.enemy_spawn_timer = 0 := by
    rw [hst2, (slashUpdatePhase_keeps _).2.2.2.2.2.1, hti1]
  have hpl3 : st3.player = st1.player := by rw [hst3, (enemyUpdatePhase_keeps _).1, hpl2]
  have hgo3 : st3.game_over = false := by rw [hst3, (enemyUpdatePhase_keeps _).2.1, hgo2]
  have hsc3 : st3.score = 0 := by rw [hst3, (enemyUpdatePhase_keeps _).2.2.1, hsc2]
  have hen3 : st3.enemies = [] := by
    rw [hst3, enemyUpdatePhase_enemies, hen2]
    rfl
  have hplat3 : st3.platforms = (resetStateOf nid o).platforms := by
    rw [hst3, (enemyUpdatePhase_keeps _).2.2.2.2.1, hplat2]
  have hti3 : st3.enemy_spawn_timer = 0 := by
    rw [hst3, (enemyUpdatePhase_keeps _).2.2.2.2.2.1, hti2]
  have hpl4 : st4.player = st1.player := by rw [hst4, (slashHitPhase_keeps _).1, hpl3]
  have hgo4 : st4.game_over = false := by rw [hst4, (slashHitPhase_keeps _).2.1, hgo3]
  have hsc4 : st4.score = 0 := by
    rw [hst4, slashHitPhase_score, hen3, slashHits_no_enemies, hsc3]
    norm_num
  have hen4 : st4.enemies = [] := by
    rw [hst4, slashHitPhase_enemies, hen3, slashHits_no_enemies]
  have hplat4 : st4.platforms = (resetStateOf nid o).platforms := by
    rw [hst4, (slashHitPhase_keeps _).2.2.1, hplat3]
  have hti4 : st4.enemy_spawn_timer = 0 := by
    rw [hst4, (slashHitPhase_keeps _).2.2.2.1, hti3]
  have hpl5 : st5.player = st1.player := by
    rw [hst5, damagePhase_player, hen4, List.foldl_nil, hpl4]
  have hgo5 : st5.game_over = false := by rw [hst5, (damagePhase_keeps _).1, hgo4]
  have hsc5 : st5.score = 0 := by rw [hst5, (damagePhase_keeps _).2.1, hsc4]
  have hplat5 : st5.platforms = (resetStateOf nid o).platforms := by
    rw [hst5, (damagePhase_keeps _).2.2.2.2.1, hplat4]
  have hti5 : st5.enemy_spawn_timer = 0 := by
    rw [hst5, (damagePhase_keeps _).2.2.2.2.2.1, hti4]
  have h6 : scrollPhase st5 = st5 := by
    apply scrollPhase_noop
    rw [hpl5]
    have : SCROLL_THRESHOLD = 266 := by with_unfolding_all decide
    omega
  have h7 : genPhase st5 = st5 := by
    apply genPhase_noop
    rw [hplat5]
    omega
  have h8 : spawnPhase st5 = { st5 with enemy_spawn_timer := st5.enemy_spawn_timer + 1 } := by
    apply spawnPhase_low
    rw [hti5, ENEMY_SPAWN_INTERVAL]
    omega
  rw [h6, h7, h8]
  set st8 : GameState := { st5 with enemy_spawn_timer := st5.enemy_spawn_timer + 1 } with hst8
  have hpl8 : st8.player = st1.player := by rw [hst8]; exact hpl5
  have hgo8 : st8.game_over = false := by rw [hst8]; exact hgo5
  have hsc8 : st8.score = 0 := by rw [hst8]; exact hsc5
  have hpl9 : (removePhase st8).player = st1.player := by
    rw [(removePhase_keeps _).1, hpl8]
  have hgo9 : (removePhase st8).game_over = false := by
    rw [(removePhase_keeps _).2.1, hgo8]
  have hsc9 : (removePhase st8).score = 0 := by
    rw [(removePhase_keeps _).2.2.1, hsc8]
  have hAy : (clampPhase (removePhase st8)).player.rect.y = 492 := by
    rw [(clampPhase_keeps _).2.2.1, hpl9, h1py]
  have hAhp : (clampPhase (removePhase st8)).player.hp = 5 := by
    rw [(clampPhase_keeps _).2.2.2, hpl9, h1php]
  have hAgo : (clampPhase (removePhase st8)).game_over = false := by
    rw [(clampPhase_keeps _).1, hgo9]
  have hAsc : (clampPhase (removePhase st8)).score = 0 := by
    rw [(clampPhase_keeps _).2.1, hsc9]
  have hnd : ¬ (clampPhase (removePhase st8)).player.is_dead := by
    unfold Player.is_dead
    rw [hAy, hAhp, SCREEN_HEIGHT]
    push_neg
    omega
  rw [deathPhase_not _ hnd]
  exact ⟨hAsc, hAgo⟩

/-- Claim C5: from a running state where the death condition holds (hp at
most 0, or the player top below the screen with the reachable-state side
facts that the player is airborne, falling, and every platform is above
the screen bottom), the next tick sets game over; from a game-over state,
any frame containing a key-down event reinitialises the world through
reset_game, in particular the score is 0 after that tick and the game is
running again. -/
theorem C5_death_and_restart (st st2 : GameState) (keys keys2 : Keys)
    (events events2 : List Bool) :
    (st.game_over = false → DeadReady st → (tick keys events st).game_over = true)
    ∧ (st2.game_over = true → true ∈ events2 →
        (tick keys2 events2 st2).score = 0 ∧ (tick keys2 events2 st2).game_over = false) := by
  constructor
  · intro h0 hd
    unfold tick
    rw [eventPhase_not_over events st h0]
    exact updatePhase_dead keys st h0 hd
  · intro h2 hk
    unfold tick
    rw [eventPhase_restart events2 st2 h2 hk]
    exact ⟨(updatePhase_reset keys2 _ _).1, (updatePhase_reset keys2 _ _).2⟩

/-- A running state whose player is out of hp. -/
def c5deadState : GameState :=
  { player := { (Player.init 100 492) with hp := 0 },
    platforms := [⟨0, ⟨0, 540, 400, 32⟩⟩],
    score := 37, slashes := [], enemies := [],
    game_over := false, enemy_spawn_timer := 3, next_id := 1, rng := c4oracle }

/-- A game-over state with a stale score. -/
def c5overState : GameState :=
  { player := Player.init 100 492,
    platforms := [⟨0, ⟨0, 540, 400, 32⟩⟩],
    score := 999, slashes := [], enemies := [],
    game_over := true, enemy_spawn_timer := 3, next_id := 1, rng := c4oracle }

/-- Witness for C5 at concrete states: a running state whose player has
0 hp turns to game over after one tick; a game-over state with a key-down
event restarts with score 0. -/
theorem C5_death_and_restart_witness :
    (tick c4keysR [] c5deadState).game_over = true
    ∧ (tick c4keysR [true] c5overState).score = 0
    ∧ (tick c4keysR [true] c5overState).game_over = false := by
  refine ⟨?_, ?_, ?_⟩
  · exact (C5_death_and_restart c5deadState c5overState c4keysR c4keysR [] []).1 rfl
      (Or.inl (by with_unfolding_all decide))
  · exact ((C5_death_and_restart c5deadState c5overState c4keysR c4keysR [] [true]).2
      rfl (by simp)).1
  · exact ((C5_death_and_restart c5deadState c5overState c4keysR c4keysR [] [true]).2
      rfl (by simp)).2

/-! ### Claim C9: at most one live enemy per platform -/

/-- Two enemies host distinct platforms whenever both are live. -/
def liveR (a b : Enemy) : Prop :=
  a.dying = false → b.dying = false → a.platform.id ≠ b.platform.id

/-- Simulation between an enemy and its updated version: the platform
assignment is unchanged and liveness can only decrease. -/
def liveSim (e e2 : Enemy) : Prop :=
  e2.platform.id = e.platform.id ∧ (e2.dying = false → e.dying = false)

theorem forall₂_mem_right {α β : Type} {r : α → β → Prop} {l : List α} {l2 : List β}
    (h : List.Forall₂ r l l2) {b : β} (hb : b ∈ l2) : ∃ a ∈ l, r a b := by
  induction h with
  | nil => cases hb
  | cons hr hrest ih =>
    rcases List.mem_cons.mp hb with rfl | hb2
    · exact ⟨_, List.mem_cons_self _ _, hr⟩
    · obtain ⟨a, ha, hra⟩ := ih hb2
      exact ⟨a, List.mem_cons_of_mem _ ha, hra⟩

theorem pairwise_transfer {l l2 : List Enemy} (hf : List.Forall₂ liveSim l l2)
    (hp : List.Pairwise liveR l) : List.Pairwise liveR l2 := by
  induction hf with
  | nil => exact List.Pairwise.nil
  | cons hr hrest ih =>
    rcases List.pairwise_cons.mp hp with ⟨hhead, htail⟩
    refine List.Pairwise.cons ?_ (ih htail)
    intro b2 hb2 ha2 hb2live
    obtain ⟨b, hbmem, hsim⟩ := forall₂_mem_right hrest hb2
    have hne := hhead b hbmem (hr.2 ha2) (hsim.2 hb2live)
    rw [hr.1, hsim.1]
    exact hne

theorem liveSim_refl (l : List Enemy) : List.Forall₂ liveSim l l := by
  rw [List.forall₂_same]
  exact fun e _ => ⟨rfl, fun h => h⟩

theorem liveSim_trans {l1 l2 l3 : List Enemy} (h1 : List.Forall₂ liveSim l1 l2)
    (h2 : List.Forall₂ liveSim l2 l3) : List.Forall₂ liveSim l1 l3 := by
  induction h1 generalizing l3 with
  | nil =>
    cases h2
    exact List.Forall₂.nil
  | cons hr hrest ih =>
    cases h2 with
    | cons hr2 hrest2 =>
      exact List.Forall₂.cons ⟨hr2.1.trans hr.1, fun h => hr.2 (hr2.2 h)⟩ (ih hrest2)

theorem liveSim_map (f : Enemy → Enemy) (hf : ∀ e, liveSim e (f e)) (l : List Enemy) :
    List.Forall₂ liveSim l (l.map f) := by
  induction l with
  | nil => exact List.Forall₂.nil
  | cons e rest ih => exact List.Forall₂.cons (hf e) ih

theorem update_dying (e : Enemy) : (Enemy.update e).dying = e.dying := by
  unfold Enemy.update
  split_ifs <;> rfl

theorem update_pid (e : Enemy) : (Enemy.update e).platform.id = e.platform.id := by
  unfold Enemy.update
  split_ifs <;> rfl

theorem update_liveSim (e : Enemy) : liveSim e (Enemy.update e) :=
  ⟨update_pid e, fun h => (update_dying e).symm.trans h⟩

theorem killFirst_liveSim (s : SlashProjectile) :
    ∀ (ens ens2 : List Enemy), killFirst s ens = some ens2 →
      List.Forall₂ liveSim ens ens2 := by
  intro ens
  induction ens with
  | nil =>
    intro ens2 h
    cases h
  | cons e rest ih =>
    intro ens2 h
    have hdef : killFirst s (e :: rest)
        = if e.dying = false ∧ Rect.collides s.rect e.rect then some (e.kill :: rest)
          else Option.map (fun l => e :: l) (killFirst s rest) := rfl
    rw [hdef] at h
    by_cases hc : e.dying = false ∧ Rect.collides s.rect e.rect
    · rw [if_pos hc] at h
      cases h
      refine List.Forall₂.cons ⟨rfl, fun hk => ?_⟩ (liveSim_refl rest)
      · simp [Enemy.kill] at hk
    · rw [if_neg hc] at h
      cases hrest : killFirst s rest with
      | none =>
        rw [hrest] at h
        cases h
      | some l2 =>
        rw [hrest] at h
        cases h
        exact List.Forall₂.cons ⟨rfl, fun h => h⟩ (ih l2 hrest)

theorem slashHits_liveSim : ∀ (sls : List SlashProjectile) (ens : List Enemy),
    List.Forall₂ liveSim ens (slashHits sls ens).2.1 := by
  intro sls
  induction sls with
  | nil => exact fun ens => liveSim_refl ens
  | cons s rest ih =>
    intro ens
    have hdef : slashHits (s :: rest) ens
        = match killFirst s ens with
          | some ens2 => ({ s with life := 0 } :: (slashHits rest ens2).1,
              (slashHits rest ens2).2.1, (slashHits rest ens2).2.2 + ENEMY_KILL_SCORE)
          | none => (s :: (slashHits rest ens).1, (slashHits rest ens).2.1,
              (slashHits rest ens).2.2) := rfl
    rw [hdef]
    cases hk : killFirst s ens with
    | some ens2 =>
      dsimp only
      exact liveSim_trans (killFirst_liveSim s ens ens2 hk) (ih ens2)
    | none =>
      dsimp only
      exact ih ens

theorem scroll_enemy_liveSim (shift : ℤ) (plats : List Platform) (e : Enemy) :
    liveSim e { e with rect := shiftRect shift e.rect,
                       platform := if plats.any (fun p => p.id == e.platform.id)
                                   then { e.platform with rect := shiftRect shift e.platform.rect }
                                   else e.platform } := by
  refine ⟨?_, fun h => h⟩
  show (if plats.any (fun p => p.id == e.platform.id) = true
      then { e.platform with rect := shiftRect shift e.platform.rect }
      else e.platform).id = e.platform.id
  split <;> rfl

theorem enemyUpdatePhase_pairwise (st : GameState)
    (hp : List.Pairwise liveR st.enemies) :
    List.Pairwise liveR (enemyUpdatePhase st).enemies := by
  rw [enemyUpdatePhase_enemies]
  exact List.Pairwise.sublist (List.filter_sublist _)
    (pairwise_transfer (liveSim_map _ update_liveSim _) hp)

theorem slashHitPhase_pairwise (st : GameState)
    (hp : List.Pairwise liveR st.enemies) :
    List.Pairwise liveR (slashHitPhase st).enemies := by
  rw [slashHitPhase_enemies]
  exact pairwise_transfer (slashHits_liveSim st.slashes st.enemies) hp

theorem scrollPhase_pairwise (st : GameState)
    (hp : List.Pairwise liveR st.enemies) :
    List.Pairwise liveR (scrollPhase st).enemies := by
  unfold scrollPhase
  split_ifs with h
  · dsimp only
    exact pairwise_transfer
      (liveSim_map _ (scroll_enemy_liveSim (st.player.rect.x - SCROLL_THRESHOLD) st.platforms) _)
      hp
  · exact hp

theorem spawnPhase_pairwise (st : GameState)
    (hp : List.Pairwise liveR st.enemies) :
    List.Pairwise liveR (spawnPhase st).enemies := by
  unfold spawnPhase
  dsimp only
  split_ifs with h1 h2 h3
  · exact hp
  · exact hp
  · rw [List.pairwise_append]
    refine ⟨hp, List.pairwise_singleton _ _, ?_⟩
    intro a ha b hb
    rw [List.mem_singleton] at hb
    subst hb
    intro halive _
    intro hid
    apply h3
    rw [List.any_eq_true]
    refine ⟨a, ha, ?_⟩
    rw [Bool.and_eq_true, beq_iff_eq, Bool.not_eq_true']
    exact ⟨hid, halive⟩
  · exact hp

theorem removePhase_pairwise (st : GameState)
    (hp : List.Pairwise liveR st.enemies) :
    List.Pairwise liveR (removePhase st).enemies :=
  List.Pairwise.sublist (List.filter_sublist _) hp

theorem deathPhase_enemies (st : GameState) : (deathPhase st).enemies = st.enemies := by
  unfold deathPhase
  split_ifs <;> rfl

theorem clampPhase_enemies (st : GameState) : (clampPhase st).enemies = st.enemies := by
  unfold clampPhase
  split_ifs <;> rfl

theorem updatePhase_pairwise (keys : Keys) (st : GameState)
    (hp : List.Pairwise liveR st.enemies) :
    List.Pairwise liveR (updatePhase keys st).enemies := by
  unfold updatePhase
  split_ifs with hgo
  · exact hp
  · rw [deathPhase_enemies, clampPhase_enemies]
    apply removePhase_pairwise
    apply spawnPhase_pairwise
    rw [(genPhase_keeps _).2.2.2.2.1]
    apply scrollPhase_pairwise
    rw [(damagePhase_keeps _).2.2.2.1]
    apply slashHitPhase_pairwise
    apply enemyUpdatePhase_pairwise
    rw [(slashUpdatePhase_keeps _).2.2.2.1, (playerPhase_keeps keys _).2.2.1]
    exact hp

theorem eventPhase_pairwise (evs : List Bool) :
    ∀ st : GameState, List.Pairwise liveR st.enemies →
      List.Pairwise liveR (eventPhase evs st).enemies := by
  induction evs with
  | nil => exact fun st hp => hp
  | cons ev rest ih =>
    intro st hp
    show List.Pairwise liveR (eventPhase rest
      (if ev = true ∧ st.game_over = true then resetStateOf st.next_id st.rng else st)).enemies
    split_ifs with h
    · apply ih
      rw [show (resetStateOf st.next_id st.rng).enemies = [] from rfl]
      exact List.Pairwise.nil
    · exact ih st hp

/-- Claim C9: in every reachable state each platform hosts at most one
live (non-dying) enemy: live enemies have pairwise distinct platform
identities.  The spawner only adds an enemy after checking that no live
enemy is assigned to the chosen platform, updates never change an enemy
platform assignment, and killed enemies never come back to life. -/
theorem C9_one_enemy_per_platform (st : GameState) (h : Reach st) :
    List.Pairwise liveR st.enemies := by
  induction h with
  | init o =>
    rw [show (initState o).enemies = [] from rfl]
    exact List.Pairwise.nil
  | step keys events st2 _ ih =>
    exact updatePhase_pairwise keys _ (eventPhase_pairwise events st2 ih)

/-- The all-zeros oracle, shared by concrete witnesses. -/
def zeroOracle : Oracle := fun _ => 0

/-- Witness for C9 at the startup state under the zero oracle. -/
theorem C9_one_enemy_per_platform_witness :
    List.Pairwise liveR (initState zeroOracle).enemies :=
  C9_one_enemy_per_platform _ (Reach.init zeroOracle)

end Platformer

end LearnPygame
